import Mathlib

/-!
Shallow embedding of `quarkchain/config.py` (pyquarkchain).

The Python module declares configuration classes whose uppercase class
attributes are "declared fields" (`_is_config_field`).  `BaseConfig.to_dict`
emits, for every declared field, the instance value if the instance has
overridden it and the class default otherwise; `BaseConfig.from_dict` starts
from a default-constructed instance and assigns every key of the mapping onto
it; `BaseConfig.__eq__` builds the declared-field dictionaries of both
instances and compares them with Python dict equality.

Embedding choices, recorded once here:

* JSON-like runtime data is the inductive `Value`; Python `dict`s become
  association lists with unique keys (Python dicts cannot hold duplicate
  keys), preserving insertion order the way Python 3.7+ dicts do.
* Python dict equality ignores key order; `Value.pyEq` therefore compares
  dictionaries by key lookup, not by list structure.
* Each config class becomes a structure whose fields mirror the class's
  declared fields, with the structure defaults equal to the state of a
  freshly constructed instance (class defaults plus the assignments done by
  the class's own constructor).  Instance attributes outside the declared
  field set - created by the permissive `from_dict` - live in an `extra`
  bucket; `to_dict` and `__eq__` never read it, exactly as in Python, where
  they only iterate over the class-level `__dict__`.
* The embedding is typed: a declared field holds a value of the runtime type
  the Python code always maintains for it.  Mappings that store a value of a
  different runtime type in a declared field (which Python `from_dict` would
  accept verbatim and which would then usually break `to_dict` or a later
  accessor) are outside the model: the corresponding decoder returns `none`
  for them.  Points where Python raises (AttributeError on `None.to_dict()`,
  KeyError on an unknown enum name, iterating a non-mapping, ...) are `none`
  as well; each such point is marked at its definition.
* Python integers are unbounded, hence `Int`; byte strings appear only via
  `.hex()` and are kept as their hex `String`; the floating `REWARD_TAX_RATE`
  is modelled by the exact rational value of the stored float (a binary
  float denotes a rational, and `fractions.Fraction(float)` is exact).
-/

/-- Runtime JSON-like values flowing through `to_dict` / `from_dict`. -/
inductive Value where
  | vnone : Value
  | vint : Int → Value
  | vbool : Bool → Value
  | vstr : String → Value
  | vrat : ℚ → Value
  | vdict : List (String × Value) → Value
  | vlist : List Value → Value

mutual

/-- Structural size of a runtime value, used as recursion fuel below. -/
def Value.size : Value → Nat
  | .vnone => 1
  | .vint _ => 1
  | .vbool _ => 1
  | .vstr _ => 1
  | .vrat _ => 1
  | .vdict d => 1 + Value.sizeEntries d
  | .vlist l => 1 + Value.sizeElems l

/-- Size of a dictionary's entries. -/
def Value.sizeEntries : List (String × Value) → Nat
  | [] => 0
  | (_, v) :: t => 1 + Value.size v + Value.sizeEntries t

/-- Size of a list's elements. -/
def Value.sizeElems : List Value → Nat
  | [] => 0
  | v :: t => 1 + Value.size v + Value.sizeElems t

end

/-- Fuel-indexed Python equality on runtime values.  Dictionaries compare by
key set and per-key value (Python dict equality ignores insertion order);
lists compare by length and position.  Values of different runtime types
compare unequal (the typed embedding never mixes numeric types in one slot,
so Python's cross-type numeric equality is not needed).  Every recursive call
strictly decreases `Value.size` of the first argument, so fuel starting at
`Value.size` of the first argument (as `Value.pyEq` supplies) never runs
out. -/
def Value.pyEqF : Nat → Value → Value → Bool
  | 0, _, _ => false
  | _ + 1, .vnone, .vnone => true
  | _ + 1, .vint a, .vint b => a == b
  | _ + 1, .vbool a, .vbool b => a == b
  | _ + 1, .vstr a, .vstr b => a == b
  | _ + 1, .vrat a, .vrat b => a == b
  | n + 1, .vdict d1, .vdict d2 =>
      d1.length == d2.length &&
      d1.all fun kv =>
        match d2.lookup kv.1 with
        | some w => Value.pyEqF n kv.2 w
        | none => false
  | n + 1, .vlist l1, .vlist l2 =>
      l1.length == l2.length && (l1.zip l2).all fun p => Value.pyEqF n p.1 p.2
  | _ + 1, _, _ => false

/-- Python equality on runtime values (see `Value.pyEqF`). -/
def Value.pyEq (v w : Value) : Bool :=
  Value.pyEqF (Value.size v) v w

/-- Python list equality lifted by an element comparison: equal lengths and
pairwise equal elements. -/
def listBeqWith (f : α → α → Bool) : List α → List α → Bool
  | [], [] => true
  | a :: as, b :: bs => f a b && listBeqWith f as bs
  | _, _ => false

/-- Python `==` on two optional sub-objects compared by a class `__eq__`:
`None == None` is true, an object never equals `None` (comparing a config
object with `None` builds the empty declared-field dict for `NoneType`,
which differs from the object's non-empty one), and two objects use the
class comparison. -/
def optBeqWith (f : α → α → Bool) : Option α → Option α → Bool
  | none, none => true
  | some a, some b => f a b
  | _, _ => false

/-- `ret[k] = v` on an association list: replace the value at the first
occurrence of `k`, appending if the key is absent (Python dict assignment). -/
def dictSet (d : List (String × Value)) (k : String) (v : Value) :
    List (String × Value) :=
  match d with
  | [] => [(k, v)]
  | (k', v') :: rest =>
      if k' == k then (k, v) :: rest else (k', v') :: dictSet rest k v

/-- `del ret[k]` on an association list. -/
def dictDel (d : List (String × Value)) (k : String) : List (String × Value) :=
  d.filter fun p => p.1 != k

/-- Entries of a decoded mapping whose keys are not declared fields: Python's
`setattr` turns them into plain instance attributes, invisible to `to_dict`
and `__eq__`. -/
def extraOf (d : List (String × Value)) (fields : List String) :
    List (String × Value) :=
  d.filter fun p => !(fields.contains p.1)

/-- Read a declared `Int` field: the mapping's value if the key is present
(the instance override), otherwise the class default.  A present value of a
different runtime type is outside the typed embedding. -/
def vGetInt (d : List (String × Value)) (k : String) (dflt : Int) : Option Int :=
  match d.lookup k with
  | none => some dflt
  | some (.vint n) => some n
  | some _ => none

/-- Read a declared `Bool` field (see `vGetInt`). -/
def vGetBool (d : List (String × Value)) (k : String) (dflt : Bool) : Option Bool :=
  match d.lookup k with
  | none => some dflt
  | some (.vbool b) => some b
  | some _ => none

/-- Read a declared `String` field (see `vGetInt`). -/
def vGetStr (d : List (String × Value)) (k : String) (dflt : String) :
    Option String :=
  match d.lookup k with
  | none => some dflt
  | some (.vstr s) => some s
  | some _ => none

/-- Read a declared rational (Python float) field (see `vGetInt`). -/
def vGetRat (d : List (String × Value)) (k : String) (dflt : ℚ) : Option ℚ :=
  match d.lookup k with
  | none => some dflt
  | some (.vrat q) => some q
  | some _ => none

/-- Read a declared optional-string field whose class default is `None`
(`GUARDIAN_PRIVATE_KEY`). -/
def vGetOptStr (d : List (String × Value)) (k : String) :
    Option (Option String) :=
  match d.lookup k with
  | none => some none
  | some .vnone => some none
  | some (.vstr s) => some (some s)
  | some _ => none

/-- Lowercase hex digit of a value below 16 (`'0'`..`'9'`, `'a'`..`'f'`). -/
def hexDigitChar (n : Nat) : Char :=
  if n < 10 then Char.ofNat (48 + n) else Char.ofNat (87 + n)

/-- Hex encoding of an ASCII string's bytes: Python `bytes.hex()` of the
UTF-8/ASCII encoding of `s` (only used on pure-ASCII literals). -/
def hexOfAscii (s : String) : String :=
  String.mk (s.data.foldr
    (fun c acc => hexDigitChar (c.toNat / 16) :: hexDigitChar (c.toNat % 16) :: acc) [])

/-- `bytes(n).hex()`: `2*n` zero hex digits. -/
def zeroBytesHex (n : Nat) : String :=
  String.mk (List.replicate (2 * n) '0')

/-- The eight lowercase hex digits of a 32-bit value, most significant first. -/
def hex8Digits (n : Nat) : List Char :=
  (List.range 8).map fun k => hexDigitChar (n / 16 ^ (7 - k) % 16)

/-- Modelled from the spec: the address-encoding collaborator
`empty_account_address(index) -> bytes` (`quarkchain.core.Address
.create_empty_account(i).serialize().hex()` in the source, whose module is
not part of the given sources).  The spec says `update` assigns each shard "a
distinct empty-account coinbase address derived from its index"; the
serialized address is a 20-byte zero recipient followed by the index packed
as a 32-bit big-endian integer, all hex encoded. -/
def emptyAccountAddressHex (i : Nat) : String :=
  String.mk (List.replicate 40 '0' ++ hex8Digits (i % 2 ^ 32))

/-- Decimal level: `QUARKSH_TO_JIAOZI = 10 ** 18`. -/
def QUARKSH_TO_JIAOZI : Int := 10 ^ 18

/-- `ConsensusType` enum. -/
inductive ConsensusType where
  | NONE
  | POW_ETHASH
  | POW_SHA3SHA3
  | POW_SIMULATE
  | POW_QKCHASH
deriving DecidableEq

/-- `.name` of an enum member. -/
def ConsensusType.name : ConsensusType → String
  | .NONE => "NONE"
  | .POW_ETHASH => "POW_ETHASH"
  | .POW_SHA3SHA3 => "POW_SHA3SHA3"
  | .POW_SIMULATE => "POW_SIMULATE"
  | .POW_QKCHASH => "POW_QKCHASH"

/-- `ConsensusType[s]`: member lookup by name; `none` models the `KeyError`
raised for anything that is not a member name (including the non-string
argument Python passes when the mapping lacked a `CONSENSUS_TYPE` key and the
attribute still holds the enum default). -/
def ConsensusType.ofName (s : String) : Option ConsensusType :=
  if s == "NONE" then some .NONE
  else if s == "POW_ETHASH" then some .POW_ETHASH
  else if s == "POW_SHA3SHA3" then some .POW_SHA3SHA3
  else if s == "POW_SIMULATE" then some .POW_SIMULATE
  else if s == "POW_QKCHASH" then some .POW_QKCHASH
  else none

/-- `ConsensusType.pow_types()`. -/
def ConsensusType.pow_types : List ConsensusType :=
  [.POW_ETHASH, .POW_SHA3SHA3, .POW_SIMULATE, .POW_QKCHASH]

/-- Membership test `config.CONSENSUS_TYPE in ConsensusType.pow_types()`. -/
def ConsensusType.isPow (c : ConsensusType) : Bool :=
  ConsensusType.pow_types.contains c

/-- `RootGenesis`: a pure field bag. -/
structure RootGenesis where
  VERSION : Int := 0
  HEIGHT : Int := 0
  SHARD_SIZE : Int := 32
  HASH_PREV_BLOCK : String := zeroBytesHex 32
  HASH_MERKLE_ROOT : String := zeroBytesHex 32
  TIMESTAMP : Int := 1519147489
  DIFFICULTY : Int := 1000000
  NONCE : Int := 0
  extra : List (String × Value) := []

/-- Declared field names of `RootGenesis`, in class declaration order. -/
def RootGenesis.fieldNames : List String :=
  ["VERSION", "HEIGHT", "SHARD_SIZE", "HASH_PREV_BLOCK", "HASH_MERKLE_ROOT",
   "TIMESTAMP", "DIFFICULTY", "NONCE"]

/-- `RootGenesis.to_dict` (inherited `BaseConfig.to_dict`). -/
def RootGenesis.to_dict (g : RootGenesis) : Value :=
  .vdict
    [("VERSION", .vint g.VERSION),
     ("HEIGHT", .vint g.HEIGHT),
     ("SHARD_SIZE", .vint g.SHARD_SIZE),
     ("HASH_PREV_BLOCK", .vstr g.HASH_PREV_BLOCK),
     ("HASH_MERKLE_ROOT", .vstr g.HASH_MERKLE_ROOT),
     ("TIMESTAMP", .vint g.TIMESTAMP),
     ("DIFFICULTY", .vint g.DIFFICULTY),
     ("NONCE", .vint g.NONCE)]

/-- `RootGenesis.from_dict` (inherited `BaseConfig.from_dict`): a fresh
instance, every mapping entry assigned by name.  A non-mapping argument
raises (`d.items()`), hence `none`. -/
def RootGenesis.from_dict (v : Value) : Option RootGenesis :=
  match v with
  | .vdict d =>
      match vGetInt d "VERSION" 0, vGetInt d "HEIGHT" 0,
            vGetInt d "SHARD_SIZE" 32,
            vGetStr d "HASH_PREV_BLOCK" (zeroBytesHex 32),
            vGetStr d "HASH_MERKLE_ROOT" (zeroBytesHex 32),
            vGetInt d "TIMESTAMP" 1519147489, vGetInt d "DIFFICULTY" 1000000,
            vGetInt d "NONCE" 0 with
      | some a1, some a2, some a3, some a4, some a5, some a6, some a7, some a8 =>
          some { VERSION := a1, HEIGHT := a2, SHARD_SIZE := a3,
                 HASH_PREV_BLOCK := a4, HASH_MERKLE_ROOT := a5,
                 TIMESTAMP := a6, DIFFICULTY := a7, NONCE := a8,
                 extra := extraOf d RootGenesis.fieldNames }
      | _, _, _, _, _, _, _, _ => none
  | _ => none

/-- `RootGenesis.__eq__` (inherited `BaseConfig.__eq__`): both instances are
of the same class, so comparing the two declared-field dicts is fieldwise
comparison of the declared fields; `extra` attributes never enter. -/
def RootGenesis.eq (a b : RootGenesis) : Bool :=
  a.VERSION == b.VERSION && a.HEIGHT == b.HEIGHT &&
  a.SHARD_SIZE == b.SHARD_SIZE && a.HASH_PREV_BLOCK == b.HASH_PREV_BLOCK &&
  a.HASH_MERKLE_ROOT == b.HASH_MERKLE_ROOT && a.TIMESTAMP == b.TIMESTAMP &&
  a.DIFFICULTY == b.DIFFICULTY && a.NONCE == b.NONCE

/-- `ShardGenesis`: field bag with the `ALLOC` mapping; the constructor sets
`self.ALLOC = dict()` (the class default `None` is therefore never seen on an
instance). -/
structure ShardGenesis where
  ROOT_HEIGHT : Int := 0
  VERSION : Int := 0
  HEIGHT : Int := 0
  HASH_PREV_MINOR_BLOCK : String := zeroBytesHex 32
  HASH_MERKLE_ROOT : String := zeroBytesHex 32
  EXTRA_DATA : String :=
    hexOfAscii
      "It was the best of times, it was the worst of times, ... - Charles Dickens"
  TIMESTAMP : Int := 1519147489
  DIFFICULTY : Int := 10000
  GAS_LIMIT : Int := 30000 * 400
  NONCE : Int := 0
  ALLOC : List (String × Value) := []
  extra : List (String × Value) := []

/-- Declared field names of `ShardGenesis`, in class declaration order. -/
def ShardGenesis.fieldNames : List String :=
  ["ROOT_HEIGHT", "VERSION", "HEIGHT", "HASH_PREV_MINOR_BLOCK",
   "HASH_MERKLE_ROOT", "EXTRA_DATA", "TIMESTAMP", "DIFFICULTY", "GAS_LIMIT",
   "NONCE", "ALLOC"]

/-- `ShardGenesis.to_dict`: the inherited `to_dict` followed by
`ret["ALLOC"] = dict()` - the in-memory allocation is never serialized. -/
def ShardGenesis.to_dict (g : ShardGenesis) : Value :=
  .vdict (dictSet
    [("ROOT_HEIGHT", .vint g.ROOT_HEIGHT),
     ("VERSION", .vint g.VERSION),
     ("HEIGHT", .vint g.HEIGHT),
     ("HASH_PREV_MINOR_BLOCK", .vstr g.HASH_PREV_MINOR_BLOCK),
     ("HASH_MERKLE_ROOT", .vstr g.HASH_MERKLE_ROOT),
     ("EXTRA_DATA", .vstr g.EXTRA_DATA),
     ("TIMESTAMP", .vint g.TIMESTAMP),
     ("DIFFICULTY", .vint g.DIFFICULTY),
     ("GAS_LIMIT", .vint g.GAS_LIMIT),
     ("NONCE", .vint g.NONCE),
     ("ALLOC", .vdict g.ALLOC)]
    "ALLOC" (.vdict []))

/-- `ShardGenesis.from_dict` (inherited): the constructor's `ALLOC` is the
empty dict, overridden by an `ALLOC` entry when present. -/
def ShardGenesis.from_dict (v : Value) : Option ShardGenesis :=
  match v with
  | .vdict d =>
      match vGetInt d "ROOT_HEIGHT" 0, vGetInt d "VERSION" 0,
            vGetInt d "HEIGHT" 0,
            vGetStr d "HASH_PREV_MINOR_BLOCK" (zeroBytesHex 32),
            vGetStr d "HASH_MERKLE_ROOT" (zeroBytesHex 32),
            vGetStr d "EXTRA_DATA"
              (hexOfAscii
                "It was the best of times, it was the worst of times, ... - Charles Dickens"),
            vGetInt d "TIMESTAMP" 1519147489, vGetInt d "DIFFICULTY" 10000,
            vGetInt d "GAS_LIMIT" (30000 * 400), vGetInt d "NONCE" 0,
            (match d.lookup "ALLOC" with
             | none => some []
             | some (.vdict a) => some a
             | some _ => none) with
      | some a1, some a2, some a3, some a4, some a5, some a6, some a7,
        some a8, some a9, some a10, some al =>
          some { ROOT_HEIGHT := a1, VERSION := a2, HEIGHT := a3,
                 HASH_PREV_MINOR_BLOCK := a4, HASH_MERKLE_ROOT := a5,
                 EXTRA_DATA := a6, TIMESTAMP := a7, DIFFICULTY := a8,
                 GAS_LIMIT := a9, NONCE := a10, ALLOC := al,
                 extra := extraOf d ShardGenesis.fieldNames }
      | _, _, _, _, _, _, _, _, _, _, _ => none
  | _ => none

/-- `ShardGenesis.__eq__` (inherited `BaseConfig.__eq__`): fieldwise on the
declared fields; the raw in-memory `ALLOC` dicts are compared with Python
dict equality - `to_dict`'s blanking of `ALLOC` does not happen here. -/
def ShardGenesis.eq (a b : ShardGenesis) : Bool :=
  a.ROOT_HEIGHT == b.ROOT_HEIGHT && a.VERSION == b.VERSION &&
  a.HEIGHT == b.HEIGHT && a.HASH_PREV_MINOR_BLOCK == b.HASH_PREV_MINOR_BLOCK &&
  a.HASH_MERKLE_ROOT == b.HASH_MERKLE_ROOT && a.EXTRA_DATA == b.EXTRA_DATA &&
  a.TIMESTAMP == b.TIMESTAMP && a.DIFFICULTY == b.DIFFICULTY &&
  a.GAS_LIMIT == b.GAS_LIMIT && a.NONCE == b.NONCE &&
  Value.pyEq (.vdict a.ALLOC) (.vdict b.ALLOC)

/-- `POWConfig`: a pure field bag. -/
structure POWConfig where
  TARGET_BLOCK_TIME : Int := 10
  REMOTE_MINE : Bool := false
  extra : List (String × Value) := []

/-- Declared field names of `POWConfig`. -/
def POWConfig.fieldNames : List String :=
  ["TARGET_BLOCK_TIME", "REMOTE_MINE"]

/-- `POWConfig.to_dict` (inherited `BaseConfig.to_dict`). -/
def POWConfig.to_dict (p : POWConfig) : Value :=
  .vdict [("TARGET_BLOCK_TIME", .vint p.TARGET_BLOCK_TIME),
          ("REMOTE_MINE", .vbool p.REMOTE_MINE)]

/-- `POWConfig.from_dict` (inherited `BaseConfig.from_dict`). -/
def POWConfig.from_dict (v : Value) : Option POWConfig :=
  match v with
  | .vdict d =>
      match vGetInt d "TARGET_BLOCK_TIME" 10, vGetBool d "REMOTE_MINE" false with
      | some t, some r =>
          some { TARGET_BLOCK_TIME := t, REMOTE_MINE := r,
                 extra := extraOf d POWConfig.fieldNames }
      | _, _ => none
  | _ => none

/-- `POWConfig.__eq__` (inherited `BaseConfig.__eq__`). -/
def POWConfig.eq (a b : POWConfig) : Bool :=
  a.TARGET_BLOCK_TIME == b.TARGET_BLOCK_TIME && a.REMOTE_MINE == b.REMOTE_MINE

/-- `RootConfig`: composite node with the consensus discriminator.  The
constructor sets `self.GENESIS = RootGenesis()`; the class defaults leave
`CONSENSUS_TYPE = NONE` and `CONSENSUS_CONFIG = None`. -/
structure RootConfig where
  MAX_STALE_ROOT_BLOCK_HEIGHT_DIFF : Int := 60
  CONSENSUS_TYPE : ConsensusType := .NONE
  CONSENSUS_CONFIG : Option POWConfig := none
  GENESIS : Option RootGenesis := some {}
  COINBASE_ADDRESS : String := zeroBytesHex 24
  COINBASE_AMOUNT : Int := 120 * QUARKSH_TO_JIAOZI
  DIFFICULTY_ADJUSTMENT_CUTOFF_TIME : Int := 40
  DIFFICULTY_ADJUSTMENT_FACTOR : Int := 1024
  extra : List (String × Value) := []

/-- Declared field names of `RootConfig`, in class declaration order. -/
def RootConfig.fieldNames : List String :=
  ["MAX_STALE_ROOT_BLOCK_HEIGHT_DIFF", "CONSENSUS_TYPE", "CONSENSUS_CONFIG",
   "GENESIS", "COINBASE_ADDRESS", "COINBASE_AMOUNT",
   "DIFFICULTY_ADJUSTMENT_CUTOFF_TIME", "DIFFICULTY_ADJUSTMENT_FACTOR"]

/-- `RootConfig.to_dict`: the base dict (the `CONSENSUS_CONFIG` and `GENESIS`
entries carry the raw attribute, observable only as `None`), the
discriminator replaced by its name, then the two dependent keys deleted when
the discriminator is `NONE` and otherwise replaced by the nested dicts.
`self.CONSENSUS_CONFIG.to_dict()` and `self.GENESIS.to_dict()` raise
(AttributeError) when the attribute is `None`, hence the `none` results. -/
def RootConfig.to_dict (r : RootConfig) : Option Value :=
  let base : List (String × Value) :=
    [("MAX_STALE_ROOT_BLOCK_HEIGHT_DIFF", .vint r.MAX_STALE_ROOT_BLOCK_HEIGHT_DIFF),
     ("CONSENSUS_TYPE", .vstr r.CONSENSUS_TYPE.name),
     ("CONSENSUS_CONFIG", .vnone),
     ("GENESIS", .vnone),
     ("COINBASE_ADDRESS", .vstr r.COINBASE_ADDRESS),
     ("COINBASE_AMOUNT", .vint r.COINBASE_AMOUNT),
     ("DIFFICULTY_ADJUSTMENT_CUTOFF_TIME", .vint r.DIFFICULTY_ADJUSTMENT_CUTOFF_TIME),
     ("DIFFICULTY_ADJUSTMENT_FACTOR", .vint r.DIFFICULTY_ADJUSTMENT_FACTOR)]
  if r.CONSENSUS_TYPE = .NONE then
    some (.vdict (dictDel (dictDel base "CONSENSUS_CONFIG") "GENESIS"))
  else
    match r.CONSENSUS_CONFIG, r.GENESIS with
    | some p, some g =>
        some (.vdict (dictSet (dictSet base "CONSENSUS_CONFIG" p.to_dict)
          "GENESIS" g.to_dict))
    | _, _ => none

/-- `RootConfig.from_dict`: the inherited `from_dict` on a fresh instance,
then the discriminator resolved by name, and - only when it is a pow type -
the two dependent entries decoded (`GENESIS` unconditionally, so an active
mapping without a `GENESIS` entry raises: the attribute still holds the fresh
`RootGenesis` object, and `RootGenesis.from_dict(object)` has no `.items()`).
When the discriminator is `NONE`, a dependent entry that is absent leaves the
constructor state (`CONSENSUS_CONFIG = None`, `GENESIS` the fresh default
object) and an explicit `None` entry is stored verbatim; a raw non-`None`
value in a dependent entry would also be stored verbatim by Python and is
outside the typed embedding. -/
def RootConfig.from_dict (v : Value) : Option RootConfig :=
  match v with
  | .vdict d =>
      match (match d.lookup "CONSENSUS_TYPE" with
             | some (.vstr s) => ConsensusType.ofName s
             | _ => none),
            vGetInt d "MAX_STALE_ROOT_BLOCK_HEIGHT_DIFF" 60,
            vGetStr d "COINBASE_ADDRESS" (zeroBytesHex 24),
            vGetInt d "COINBASE_AMOUNT" (120 * QUARKSH_TO_JIAOZI),
            vGetInt d "DIFFICULTY_ADJUSTMENT_CUTOFF_TIME" 40,
            vGetInt d "DIFFICULTY_ADJUSTMENT_FACTOR" 1024 with
      | some ct, some a1, some a2, some a3, some a4, some a5 =>
          if ct.isPow then
            match (match d.lookup "CONSENSUS_CONFIG" with
                   | some cv => POWConfig.from_dict cv
                   | none => none),
                  (match d.lookup "GENESIS" with
                   | some gv => RootGenesis.from_dict gv
                   | none => none) with
            | some p, some g =>
                some { MAX_STALE_ROOT_BLOCK_HEIGHT_DIFF := a1,
                       CONSENSUS_TYPE := ct, CONSENSUS_CONFIG := some p,
                       GENESIS := some g, COINBASE_ADDRESS := a2,
                       COINBASE_AMOUNT := a3,
                       DIFFICULTY_ADJUSTMENT_CUTOFF_TIME := a4,
                       DIFFICULTY_ADJUSTMENT_FACTOR := a5,
                       extra := extraOf d RootConfig.fieldNames }
            | _, _ => none
          else
            match (match d.lookup "CONSENSUS_CONFIG" with
                   | none => some (none : Option POWConfig)
                   | some .vnone => some none
                   | some _ => none),
                  (match d.lookup "GENESIS" with
                   | none => some (some ({} : RootGenesis))
                   | some .vnone => some none
                   | some _ => none) with
            | some p, some g =>
                some { MAX_STALE_ROOT_BLOCK_HEIGHT_DIFF := a1,
                       CONSENSUS_TYPE := ct, CONSENSUS_CONFIG := p,
                       GENESIS := g, COINBASE_ADDRESS := a2,
                       COINBASE_AMOUNT := a3,
                       DIFFICULTY_ADJUSTMENT_CUTOFF_TIME := a4,
                       DIFFICULTY_ADJUSTMENT_FACTOR := a5,
                       extra := extraOf d RootConfig.fieldNames }
            | _, _ => none
      | _, _, _, _, _, _ => none
  | _ => none

/-- `RootConfig.__eq__` (inherited `BaseConfig.__eq__`): fieldwise on the
declared fields; the enum compares as itself and the two optional sub-objects
compare with their class `__eq__` (an object never equals `None`). -/
def RootConfig.eq (a b : RootConfig) : Bool :=
  a.MAX_STALE_ROOT_BLOCK_HEIGHT_DIFF == b.MAX_STALE_ROOT_BLOCK_HEIGHT_DIFF &&
  a.CONSENSUS_TYPE == b.CONSENSUS_TYPE &&
  optBeqWith POWConfig.eq a.CONSENSUS_CONFIG b.CONSENSUS_CONFIG &&
  optBeqWith RootGenesis.eq a.GENESIS b.GENESIS &&
  a.COINBASE_ADDRESS == b.COINBASE_ADDRESS &&
  a.COINBASE_AMOUNT == b.COINBASE_AMOUNT &&
  a.DIFFICULTY_ADJUSTMENT_CUTOFF_TIME == b.DIFFICULTY_ADJUSTMENT_CUTOFF_TIME &&
  a.DIFFICULTY_ADJUSTMENT_FACTOR == b.DIFFICULTY_ADJUSTMENT_FACTOR

/-- `ShardConfig`: composite node.  The constructor sets
`self._root_config = None` (the non-serialized back-reference, modelled by
value: the owning aggregate stores a copy of the root it wires in) and
`self.GENESIS = ShardGenesis()`. -/
structure ShardConfig where
  CONSENSUS_TYPE : ConsensusType := .NONE
  CONSENSUS_CONFIG : Option POWConfig := none
  GENESIS : Option ShardGenesis := some {}
  COINBASE_ADDRESS : String := zeroBytesHex 24
  COINBASE_AMOUNT : Int := 5 * QUARKSH_TO_JIAOZI
  GAS_LIMIT_EMA_DENOMINATOR : Int := 1024
  GAS_LIMIT_ADJUSTMENT_FACTOR : Int := 1024
  GAS_LIMIT_MINIMUM : Int := 5000
  GAS_LIMIT_MAXIMUM : Int := 2 ^ 63 - 1
  GAS_LIMIT_USAGE_ADJUSTMENT_NUMERATOR : Int := 3
  GAS_LIMIT_USAGE_ADJUSTMENT_DENOMINATOR : Int := 2
  DIFFICULTY_ADJUSTMENT_CUTOFF_TIME : Int := 7
  DIFFICULTY_ADJUSTMENT_FACTOR : Int := 512
  EXTRA_SHARD_BLOCKS_IN_ROOT_BLOCK : Int := 3
  root_config : Option RootConfig := none
  extra : List (String × Value) := []

/-- Declared field names of `ShardConfig`, in class declaration order (the
lowercase `_root_config` and the `root_config` property are not fields). -/
def ShardConfig.fieldNames : List String :=
  ["CONSENSUS_TYPE", "CONSENSUS_CONFIG", "GENESIS", "COINBASE_ADDRESS",
   "COINBASE_AMOUNT", "GAS_LIMIT_EMA_DENOMINATOR",
   "GAS_LIMIT_ADJUSTMENT_FACTOR", "GAS_LIMIT_MINIMUM", "GAS_LIMIT_MAXIMUM",
   "GAS_LIMIT_USAGE_ADJUSTMENT_NUMERATOR",
   "GAS_LIMIT_USAGE_ADJUSTMENT_DENOMINATOR",
   "DIFFICULTY_ADJUSTMENT_CUTOFF_TIME", "DIFFICULTY_ADJUSTMENT_FACTOR",
   "EXTRA_SHARD_BLOCKS_IN_ROOT_BLOCK"]

/-- `ShardConfig.to_dict`: like `RootConfig.to_dict`, except that in the
active branch the `GENESIS` entry is replaced only when the attribute is
truthy - when `self.GENESIS` is `None` the base dict's raw entry (`None`)
stays in the output. -/
def ShardConfig.to_dict (s : ShardConfig) : Option Value :=
  let base : List (String × Value) :=
    [("CONSENSUS_TYPE", .vstr s.CONSENSUS_TYPE.name),
     ("CONSENSUS_CONFIG", .vnone),
     ("GENESIS", .vnone),
     ("COINBASE_ADDRESS", .vstr s.COINBASE_ADDRESS),
     ("COINBASE_AMOUNT", .vint s.COINBASE_AMOUNT),
     ("GAS_LIMIT_EMA_DENOMINATOR", .vint s.GAS_LIMIT_EMA_DENOMINATOR),
     ("GAS_LIMIT_ADJUSTMENT_FACTOR", .vint s.GAS_LIMIT_ADJUSTMENT_FACTOR),
     ("GAS_LIMIT_MINIMUM", .vint s.GAS_LIMIT_MINIMUM),
     ("GAS_LIMIT_MAXIMUM", .vint s.GAS_LIMIT_MAXIMUM),
     ("GAS_LIMIT_USAGE_ADJUSTMENT_NUMERATOR",
       .vint s.GAS_LIMIT_USAGE_ADJUSTMENT_NUMERATOR),
     ("GAS_LIMIT_USAGE_ADJUSTMENT_DENOMINATOR",
       .vint s.GAS_LIMIT_USAGE_ADJUSTMENT_DENOMINATOR),
     ("DIFFICULTY_ADJUSTMENT_CUTOFF_TIME",
       .vint s.DIFFICULTY_ADJUSTMENT_CUTOFF_TIME),
     ("DIFFICULTY_ADJUSTMENT_FACTOR", .vint s.DIFFICULTY_ADJUSTMENT_FACTOR),
     ("EXTRA_SHARD_BLOCKS_IN_ROOT_BLOCK",
       .vint s.EXTRA_SHARD_BLOCKS_IN_ROOT_BLOCK)]
  if s.CONSENSUS_TYPE = .NONE then
    some (.vdict (dictDel (dictDel base "CONSENSUS_CONFIG") "GENESIS"))
  else
    match s.CONSENSUS_CONFIG with
    | none => none
    | some p =>
        let d1 := dictSet base "CONSENSUS_CONFIG" p.to_dict
        match s.GENESIS with
        | some g => some (.vdict (dictSet d1 "GENESIS" g.to_dict))
        | none => some (.vdict d1)

/-- `ShardConfig.from_dict`: like `RootConfig.from_dict`, except that in the
active branch the `GENESIS` attribute is decoded only when truthy: an absent
entry leaves the fresh (truthy) `ShardGenesis` object in place and decoding
it raises; an explicit `None` entry is falsy and stays `None`; a non-empty
sub-mapping decodes.  A present falsy non-`None` value (such as the empty
mapping) would be kept verbatim by Python and is outside the typed
embedding. -/
def ShardConfig.from_dict (v : Value) : Option ShardConfig :=
  match v with
  | .vdict d =>
      match (match d.lookup "CONSENSUS_TYPE" with
             | some (.vstr s) => ConsensusType.ofName s
             | _ => none),
            vGetStr d "COINBASE_ADDRESS" (zeroBytesHex 24),
            vGetInt d "COINBASE_AMOUNT" (5 * QUARKSH_TO_JIAOZI),
            vGetInt d "GAS_LIMIT_EMA_DENOMINATOR" 1024,
            vGetInt d "GAS_LIMIT_ADJUSTMENT_FACTOR" 1024,
            vGetInt d "GAS_LIMIT_MINIMUM" 5000,
            vGetInt d "GAS_LIMIT_MAXIMUM" (2 ^ 63 - 1),
            vGetInt d "GAS_LIMIT_USAGE_ADJUSTMENT_NUMERATOR" 3,
            vGetInt d "GAS_LIMIT_USAGE_ADJUSTMENT_DENOMINATOR" 2,
            vGetInt d "DIFFICULTY_ADJUSTMENT_CUTOFF_TIME" 7,
            vGetInt d "DIFFICULTY_ADJUSTMENT_FACTOR" 512,
            vGetInt d "EXTRA_SHARD_BLOCKS_IN_ROOT_BLOCK" 3 with
      | some ct, some a1, some a2, some a3, some a4, some a5, some a6,
        some a7, some a8, some a9, some a10, some a11 =>
          match (if ct.isPow then
                   match (match d.lookup "CONSENSUS_CONFIG" with
                          | some cv => POWConfig.from_dict cv
                          | none => none),
                         (match d.lookup "GENESIS" with
                          | none => none
                          | some .vnone => some (none : Option ShardGenesis)
                          | some (.vdict gd) =>
                              if gd.isEmpty then none
                              else (ShardGenesis.from_dict (.vdict gd)).map some
                          | some _ => none) with
                   | some p, some g => some (some p, g)
                   | _, _ => none
                 else
                   match (match d.lookup "CONSENSUS_CONFIG" with
                          | none => some (none : Option POWConfig)
                          | some .vnone => some none
                          | some _ => none),
                         (match d.lookup "GENESIS" with
                          | none => some (some ({} : ShardGenesis))
                          | some .vnone => some (none : Option ShardGenesis)
                          | some _ => none) with
                   | some p, some g => some (p, g)
                   | _, _ => none) with
          | some (cc, gen) =>
              some { CONSENSUS_TYPE := ct, CONSENSUS_CONFIG := cc,
                     GENESIS := gen, COINBASE_ADDRESS := a1,
                     COINBASE_AMOUNT := a2, GAS_LIMIT_EMA_DENOMINATOR := a3,
                     GAS_LIMIT_ADJUSTMENT_FACTOR := a4,
                     GAS_LIMIT_MINIMUM := a5, GAS_LIMIT_MAXIMUM := a6,
                     GAS_LIMIT_USAGE_ADJUSTMENT_NUMERATOR := a7,
                     GAS_LIMIT_USAGE_ADJUSTMENT_DENOMINATOR := a8,
                     DIFFICULTY_ADJUSTMENT_CUTOFF_TIME := a9,
                     DIFFICULTY_ADJUSTMENT_FACTOR := a10,
                     EXTRA_SHARD_BLOCKS_IN_ROOT_BLOCK := a11,
                     root_config := none,
                     extra := extraOf d ShardConfig.fieldNames }
          | none => none
      | _, _, _, _, _, _, _, _, _, _, _, _ => none
  | _ => none

/-- `ShardConfig.__eq__` (inherited `BaseConfig.__eq__`): fieldwise on the
declared fields; neither `_root_config` nor any other non-field attribute
enters. -/
def ShardConfig.eq (a b : ShardConfig) : Bool :=
  a.CONSENSUS_TYPE == b.CONSENSUS_TYPE &&
  optBeqWith POWConfig.eq a.CONSENSUS_CONFIG b.CONSENSUS_CONFIG &&
  optBeqWith ShardGenesis.eq a.GENESIS b.GENESIS &&
  a.COINBASE_ADDRESS == b.COINBASE_ADDRESS &&
  a.COINBASE_AMOUNT == b.COINBASE_AMOUNT &&
  a.GAS_LIMIT_EMA_DENOMINATOR == b.GAS_LIMIT_EMA_DENOMINATOR &&
  a.GAS_LIMIT_ADJUSTMENT_FACTOR == b.GAS_LIMIT_ADJUSTMENT_FACTOR &&
  a.GAS_LIMIT_MINIMUM == b.GAS_LIMIT_MINIMUM &&
  a.GAS_LIMIT_MAXIMUM == b.GAS_LIMIT_MAXIMUM &&
  a.GAS_LIMIT_USAGE_ADJUSTMENT_NUMERATOR == b.GAS_LIMIT_USAGE_ADJUSTMENT_NUMERATOR &&
  a.GAS_LIMIT_USAGE_ADJUSTMENT_DENOMINATOR == b.GAS_LIMIT_USAGE_ADJUSTMENT_DENOMINATOR &&
  a.DIFFICULTY_ADJUSTMENT_CUTOFF_TIME == b.DIFFICULTY_ADJUSTMENT_CUTOFF_TIME &&
  a.DIFFICULTY_ADJUSTMENT_FACTOR == b.DIFFICULTY_ADJUSTMENT_FACTOR &&
  a.EXTRA_SHARD_BLOCKS_IN_ROOT_BLOCK == b.EXTRA_SHARD_BLOCKS_IN_ROOT_BLOCK

/-- `int(a / b)` on positive Python integers: Python evaluates the true
division and truncates toward zero, which for the exact quotient is
truncating integer division.  (Python's `/` goes through binary floating
point; the embedding uses the exact quotient, the intended reading for the
block-time magnitudes involved.)  `Int.tdiv` is Lean's
truncate-toward-zero division. -/
def pyIntDiv (a b : Int) : Int :=
  Int.tdiv a b

/-- `ShardConfig.max_blocks_per_shard_in_one_root_block`: reading it without
the back-reference wired or without either consensus config raises
(AttributeError on `None`), hence `Option`. -/
def ShardConfig.max_blocks_per_shard_in_one_root_block (s : ShardConfig) :
    Option Int :=
  match s.root_config with
  | none => none
  | some r =>
      match r.CONSENSUS_CONFIG, s.CONSENSUS_CONFIG with
      | some rp, some sp =>
          some (pyIntDiv rp.TARGET_BLOCK_TIME sp.TARGET_BLOCK_TIME +
            s.EXTRA_SHARD_BLOCKS_IN_ROOT_BLOCK)
      | _, _ => none

/-- `ShardConfig.max_stale_minor_block_height_diff`. -/
def ShardConfig.max_stale_minor_block_height_diff (s : ShardConfig) :
    Option Int :=
  match s.root_config with
  | none => none
  | some r =>
      match r.CONSENSUS_CONFIG, s.CONSENSUS_CONFIG with
      | some rp, some sp =>
          some (pyIntDiv
            (r.MAX_STALE_ROOT_BLOCK_HEIGHT_DIFF * rp.TARGET_BLOCK_TIME)
            sp.TARGET_BLOCK_TIME)
      | _, _ => none

/-- `ShardConfig.max_minor_blocks_in_memory` = twice the stale height diff. -/
def ShardConfig.max_minor_blocks_in_memory (s : ShardConfig) : Option Int :=
  (s.max_stale_minor_block_height_diff).map (· * 2)

/-- `NetworkId.MAINNET`. -/
def NetworkId.MAINNET : Int := 1

/-- `NetworkId.TESTNET_PORSCHE`. -/
def NetworkId.TESTNET_PORSCHE : Int := 3

/-- Bounded iteration of the convergent loop of
`fractions.Fraction.limit_denominator` (CPython).  The loop state is
`(p0, q0, p1, q1)` with the current remainder pair `(n, d)`; each iteration
computes `a = n // d`, stops when the next convergent denominator
`q2 = q0 + a*q1` exceeds the bound, and otherwise advances with
`(n, d) := (d, n - a*d)`.  Since `0 <= n - a*d < d` whenever `0 < d`, the
denominator strictly decreases, so the fuel `limit_denominator` supplies
(the starting denominator plus one) can never run out; the fuel-exhausted
and non-positive-`d` rows are unreachable for the reduced fractions the
caller passes. -/
def limitLoopF (maxd : Int) :
    Nat → Int → Int → Int → Int → Int → Int → Int × Int × Int × Int
  | 0, p0, q0, p1, q1, _, _ => (p0, q0, p1, q1)
  | fuel + 1, p0, q0, p1, q1, n, d =>
      if d ≤ 0 then (p0, q0, p1, q1)
      else
        let a := Int.fdiv n d
        let q2 := q0 + a * q1
        if maxd < q2 then (p0, q0, p1, q1)
        else limitLoopF maxd fuel p1 q1 (p0 + a * p1) q2 d (n - a * d)

/-- `fractions.Fraction.limit_denominator` (CPython): the closest fraction
with denominator at most `max_denominator`.  A fraction already within the
bound is returned unchanged; otherwise the continued-fraction convergent
loop above runs and the closer of the two candidate bounds is returned
(the lower bound on ties, as in CPython). -/
def limit_denominator (q : ℚ) (max_denominator : Int) : ℚ :=
  if (q.den : Int) ≤ max_denominator then q
  else
    match limitLoopF max_denominator (q.den + 1) 0 1 1 0 q.num (q.den : Int) with
    | (p0, q0, p1, q1) =>
        let k := Int.fdiv (max_denominator - q0) q1
        let bound1 : ℚ := ((p0 + k * p1 : Int) : ℚ) / ((q0 + k * q1 : Int) : ℚ)
        let bound2 : ℚ := ((p1 : Int) : ℚ) / ((q1 : Int) : ℚ)
        if |bound2 - q| ≤ |bound1 - q| then bound2 else bound1

/-- The exact rational value of the stored float `0.5` (`REWARD_TAX_RATE`'s
class default), given as an already-reduced fraction so that it evaluates
inside the kernel. -/
def halfRat : ℚ :=
  ⟨1, 2, by decide, Nat.coprime_one_left 2⟩

/-- Encoding of an optional-string attribute (`GUARDIAN_PRIVATE_KEY`):
`None` or the string itself. -/
def optStrVal : Option String → Value
  | none => .vnone
  | some s => .vstr s

/-- The `RootConfig` built by `QuarkChainConfig.__init__`: simulated
proof-of-work consensus, target block time 10, and the root genesis's
`SHARD_SIZE` set to the aggregate's (default 8). -/
def qcDefaultRoot : RootConfig :=
  { CONSENSUS_TYPE := .POW_SIMULATE,
    CONSENSUS_CONFIG := some { TARGET_BLOCK_TIME := 10 },
    GENESIS := some { SHARD_SIZE := 8 } }

/-- A `ShardConfig` as built by `QuarkChainConfig.__init__`: simulated
proof-of-work, target block time 3, back-reference wired to the fresh
root. -/
def qcDefaultShard : ShardConfig :=
  { CONSENSUS_TYPE := .POW_SIMULATE,
    CONSENSUS_CONFIG := some { TARGET_BLOCK_TIME := 3 },
    root_config := some qcDefaultRoot }

/-- `QuarkChainConfig`: the aggregate.  Structure defaults are the state
after `__init__` (which also creates the lowercase, non-field
`loadtest_accounts` and `_cached_guardian_private_key` attributes, not
modelled).  The stored `REWARD_TAX_RATE` float `0.5` is exactly `1/2`. -/
structure QuarkChainConfig where
  SHARD_SIZE : Int := 8
  MAX_NEIGHBORS : Int := 32
  NETWORK_ID : Int := NetworkId.TESTNET_PORSCHE
  TRANSACTION_QUEUE_SIZE_LIMIT_PER_SHARD : Int := 10000
  BLOCK_EXTRA_DATA_SIZE_LIMIT : Int := 1024
  PROOF_OF_PROGRESS_BLOCKS : Int := 1
  GUARDIAN_PUBLIC_KEY : String :=
    "ab856abd0983a82972021e454fcf66ed5940ed595b0898bcd75cbe2d0a51a00f5358b566df22395a2a8bf6c022c1d51a2c3defe654e91a8d244947783029694d"
  GUARDIAN_PRIVATE_KEY : Option String := none
  P2P_PROTOCOL_VERSION : Int := 0
  P2P_COMMAND_SIZE_LIMIT : Int := 2 ^ 32 - 1
  SKIP_ROOT_DIFFICULTY_CHECK : Bool := false
  SKIP_MINOR_DIFFICULTY_CHECK : Bool := false
  ROOT : RootConfig := qcDefaultRoot
  SHARD_LIST : List ShardConfig := List.replicate 8 qcDefaultShard
  REWARD_TAX_RATE : ℚ := halfRat
  extra : List (String × Value) := []

/-- Declared field names of `QuarkChainConfig`, in class declaration order. -/
def QuarkChainConfig.fieldNames : List String :=
  ["SHARD_SIZE", "MAX_NEIGHBORS", "NETWORK_ID",
   "TRANSACTION_QUEUE_SIZE_LIMIT_PER_SHARD", "BLOCK_EXTRA_DATA_SIZE_LIMIT",
   "PROOF_OF_PROGRESS_BLOCKS", "GUARDIAN_PUBLIC_KEY", "GUARDIAN_PRIVATE_KEY",
   "P2P_PROTOCOL_VERSION", "P2P_COMMAND_SIZE_LIMIT",
   "SKIP_ROOT_DIFFICULTY_CHECK", "SKIP_MINOR_DIFFICULTY_CHECK", "ROOT",
   "SHARD_LIST", "REWARD_TAX_RATE"]

/-- `QuarkChainConfig.to_dict`: the base dict with the `ROOT` entry replaced
by the root's dict and `SHARD_LIST` by the list of shard dicts. -/
def QuarkChainConfig.to_dict (c : QuarkChainConfig) : Option Value :=
  let base : List (String × Value) :=
    [("SHARD_SIZE", .vint c.SHARD_SIZE),
     ("MAX_NEIGHBORS", .vint c.MAX_NEIGHBORS),
     ("NETWORK_ID", .vint c.NETWORK_ID),
     ("TRANSACTION_QUEUE_SIZE_LIMIT_PER_SHARD",
       .vint c.TRANSACTION_QUEUE_SIZE_LIMIT_PER_SHARD),
     ("BLOCK_EXTRA_DATA_SIZE_LIMIT", .vint c.BLOCK_EXTRA_DATA_SIZE_LIMIT),
     ("PROOF_OF_PROGRESS_BLOCKS", .vint c.PROOF_OF_PROGRESS_BLOCKS),
     ("GUARDIAN_PUBLIC_KEY", .vstr c.GUARDIAN_PUBLIC_KEY),
     ("GUARDIAN_PRIVATE_KEY", optStrVal c.GUARDIAN_PRIVATE_KEY),
     ("P2P_PROTOCOL_VERSION", .vint c.P2P_PROTOCOL_VERSION),
     ("P2P_COMMAND_SIZE_LIMIT", .vint c.P2P_COMMAND_SIZE_LIMIT),
     ("SKIP_ROOT_DIFFICULTY_CHECK", .vbool c.SKIP_ROOT_DIFFICULTY_CHECK),
     ("SKIP_MINOR_DIFFICULTY_CHECK", .vbool c.SKIP_MINOR_DIFFICULTY_CHECK),
     ("ROOT", .vnone),
     ("SHARD_LIST", .vnone),
     ("REWARD_TAX_RATE", .vrat c.REWARD_TAX_RATE)]
  match c.ROOT.to_dict, c.SHARD_LIST.mapM ShardConfig.to_dict with
  | some rd, some sds =>
      some (.vdict (dictSet (dictSet base "ROOT" rd) "SHARD_LIST" (.vlist sds)))
  | _, _ => none

/-- `QuarkChainConfig.from_dict`: the inherited `from_dict`, then `ROOT`
decoded as a `RootConfig`, every element of `SHARD_LIST` decoded as a
`ShardConfig`, and every decoded shard's back-reference wired to the decoded
root.  A mapping without a `ROOT` or `SHARD_LIST` entry raises: the fresh
instance's attribute still holds the constructor's objects and the nested
`from_dict` calls fail on them (`.items()`); iterating a non-list
`SHARD_LIST` similarly feeds non-mappings to `ShardConfig.from_dict`. -/
def QuarkChainConfig.from_dict (v : Value) : Option QuarkChainConfig :=
  match v with
  | .vdict d =>
      match vGetInt d "SHARD_SIZE" 8, vGetInt d "MAX_NEIGHBORS" 32,
            vGetInt d "NETWORK_ID" NetworkId.TESTNET_PORSCHE,
            vGetInt d "TRANSACTION_QUEUE_SIZE_LIMIT_PER_SHARD" 10000,
            vGetInt d "BLOCK_EXTRA_DATA_SIZE_LIMIT" 1024,
            vGetInt d "PROOF_OF_PROGRESS_BLOCKS" 1,
            vGetStr d "GUARDIAN_PUBLIC_KEY"
              "ab856abd0983a82972021e454fcf66ed5940ed595b0898bcd75cbe2d0a51a00f5358b566df22395a2a8bf6c022c1d51a2c3defe654e91a8d244947783029694d",
            vGetOptStr d "GUARDIAN_PRIVATE_KEY",
            vGetInt d "P2P_PROTOCOL_VERSION" 0,
            vGetInt d "P2P_COMMAND_SIZE_LIMIT" (2 ^ 32 - 1),
            vGetBool d "SKIP_ROOT_DIFFICULTY_CHECK" false,
            vGetBool d "SKIP_MINOR_DIFFICULTY_CHECK" false,
            vGetRat d "REWARD_TAX_RATE" halfRat with
      | some a1, some a2, some a3, some a4, some a5, some a6, some a7,
        some a8, some a9, some a10, some a11, some a12, some a13 =>
          match (match d.lookup "ROOT" with
                 | some rv => RootConfig.from_dict rv
                 | none => none),
                (match d.lookup "SHARD_LIST" with
                 | some (.vlist items) => items.mapM ShardConfig.from_dict
                 | some _ => none
                 | none => none) with
          | some root, some shards =>
              some { SHARD_SIZE := a1, MAX_NEIGHBORS := a2, NETWORK_ID := a3,
                     TRANSACTION_QUEUE_SIZE_LIMIT_PER_SHARD := a4,
                     BLOCK_EXTRA_DATA_SIZE_LIMIT := a5,
                     PROOF_OF_PROGRESS_BLOCKS := a6,
                     GUARDIAN_PUBLIC_KEY := a7, GUARDIAN_PRIVATE_KEY := a8,
                     P2P_PROTOCOL_VERSION := a9, P2P_COMMAND_SIZE_LIMIT := a10,
                     SKIP_ROOT_DIFFICULTY_CHECK := a11,
                     SKIP_MINOR_DIFFICULTY_CHECK := a12,
                     ROOT := root,
                     SHARD_LIST :=
                       shards.map fun s => { s with root_config := some root },
                     REWARD_TAX_RATE := a13,
                     extra := extraOf d QuarkChainConfig.fieldNames }
          | _, _ => none
      | _, _, _, _, _, _, _, _, _, _, _, _, _ => none
  | _ => none

/-- `QuarkChainConfig.__eq__` (inherited `BaseConfig.__eq__`): fieldwise;
`ROOT` and the `SHARD_LIST` elements compare with their class `__eq__`,
the list by length and position (Python list equality). -/
def QuarkChainConfig.eq (a b : QuarkChainConfig) : Bool :=
  a.SHARD_SIZE == b.SHARD_SIZE && a.MAX_NEIGHBORS == b.MAX_NEIGHBORS &&
  a.NETWORK_ID == b.NETWORK_ID &&
  a.TRANSACTION_QUEUE_SIZE_LIMIT_PER_SHARD == b.TRANSACTION_QUEUE_SIZE_LIMIT_PER_SHARD &&
  a.BLOCK_EXTRA_DATA_SIZE_LIMIT == b.BLOCK_EXTRA_DATA_SIZE_LIMIT &&
  a.PROOF_OF_PROGRESS_BLOCKS == b.PROOF_OF_PROGRESS_BLOCKS &&
  a.GUARDIAN_PUBLIC_KEY == b.GUARDIAN_PUBLIC_KEY &&
  optBeqWith (fun x y => x == y) a.GUARDIAN_PRIVATE_KEY b.GUARDIAN_PRIVATE_KEY &&
  a.P2P_PROTOCOL_VERSION == b.P2P_PROTOCOL_VERSION &&
  a.P2P_COMMAND_SIZE_LIMIT == b.P2P_COMMAND_SIZE_LIMIT &&
  a.SKIP_ROOT_DIFFICULTY_CHECK == b.SKIP_ROOT_DIFFICULTY_CHECK &&
  a.SKIP_MINOR_DIFFICULTY_CHECK == b.SKIP_MINOR_DIFFICULTY_CHECK &&
  RootConfig.eq a.ROOT b.ROOT &&
  listBeqWith ShardConfig.eq a.SHARD_LIST b.SHARD_LIST &&
  a.REWARD_TAX_RATE == b.REWARD_TAX_RATE

/-- `QuarkChainConfig.reward_tax_rate`: the stored float as an exact
fraction, clamped to denominator at most `10**6` by `limit_denominator`;
`none` models the `assert ret.denominator <= 100` failing. -/
def QuarkChainConfig.reward_tax_rate (c : QuarkChainConfig) : Option ℚ :=
  let ret := limit_denominator c.REWARD_TAX_RATE 1000000
  if ret.den ≤ 100 then some ret else none

/-- `QuarkChainConfig.get_genesis_root_height(shard_id)`: raises on a
missing shard or a shard without genesis. -/
def QuarkChainConfig.get_genesis_root_height (c : QuarkChainConfig)
    (shard_id : Nat) : Option Int :=
  (c.SHARD_LIST.get? shard_id).bind fun s => s.GENESIS.map (·.ROOT_HEIGHT)

/-- The loop of `get_genesis_shard_ids`: ids of the shards whose `GENESIS`
is truthy (a genesis object; `None` is falsy), counting from `i`. -/
def genesisIdsFrom : List ShardConfig → Nat → List Nat
  | [], _ => []
  | s :: rest, i =>
      if s.GENESIS.isSome then i :: genesisIdsFrom rest (i + 1)
      else genesisIdsFrom rest (i + 1)

/-- `QuarkChainConfig.get_genesis_shard_ids`. -/
def QuarkChainConfig.get_genesis_shard_ids (c : QuarkChainConfig) : List Nat :=
  genesisIdsFrom c.SHARD_LIST 0

/-- The loop of `get_initialized_shard_ids_before_root_height`: ids of the
shards with a genesis whose `ROOT_HEIGHT` is strictly below `root_height`
(the source compares with `<`). -/
def initializedIdsFrom (root_height : Int) : List ShardConfig → Nat → List Nat
  | [], _ => []
  | s :: rest, i =>
      match s.GENESIS with
      | some g =>
          if g.ROOT_HEIGHT < root_height then
            i :: initializedIdsFrom root_height rest (i + 1)
          else initializedIdsFrom root_height rest (i + 1)
      | none => initializedIdsFrom root_height rest (i + 1)

/-- `QuarkChainConfig.get_initialized_shard_ids_before_root_height`. -/
def QuarkChainConfig.get_initialized_shard_ids_before_root_height
    (c : QuarkChainConfig) (root_height : Int) : List Nat :=
  initializedIdsFrom root_height c.SHARD_LIST 0

/-- `QuarkChainConfig.update(shard_size, root_block_time, minor_block_time)`:
destructive rebuild.  `SHARD_SIZE` is set first; a brand-new root (simulated
consensus, the given root block time, genesis shard size equal to the new
count) replaces the old one; the shard list is rebuilt from scratch with
`shard_size` fresh shards, each wired to the new root, given the given minor
block time, and given the empty-account coinbase address of its index. -/
def QuarkChainConfig.update (c : QuarkChainConfig) (shard_size : Nat)
    (root_block_time minor_block_time : Int) : QuarkChainConfig :=
  let root : RootConfig :=
    { CONSENSUS_TYPE := .POW_SIMULATE,
      CONSENSUS_CONFIG := some { TARGET_BLOCK_TIME := root_block_time },
      GENESIS := some { SHARD_SIZE := (shard_size : Int) } }
  { c with
    SHARD_SIZE := (shard_size : Int),
    ROOT := root,
    SHARD_LIST :=
      (List.range shard_size).map fun i =>
        { CONSENSUS_TYPE := .POW_SIMULATE,
          CONSENSUS_CONFIG := some { TARGET_BLOCK_TIME := minor_block_time },
          COINBASE_ADDRESS := emptyAccountAddressHex i,
          root_config := some root } }

/-- Well-formedness of a `ShardConfig` for the serialization round trip: an
inactive node carries no consensus config and the constructor's default
genesis (what decoding such a node reproduces), and an active node has a
consensus config and, if it has a genesis at all, one whose allocation is
empty (the only state `to_dict`'s blanking of `ALLOC` can reproduce). -/
def ShardWF (s : ShardConfig) : Prop :=
  (s.CONSENSUS_TYPE = .NONE ∧ s.CONSENSUS_CONFIG = none ∧
    s.GENESIS = some ({} : ShardGenesis)) ∨
  (s.CONSENSUS_TYPE ≠ .NONE ∧ (∃ p, s.CONSENSUS_CONFIG = some p) ∧
    (s.GENESIS = none ∨ ∃ g, s.GENESIS = some g ∧ g.ALLOC = []))

/-- Well-formedness of a `RootConfig` for the round trip: an inactive node
carries no consensus config and the constructor's default genesis; an active
node has both sections present (`RootConfig.to_dict` reads both
unconditionally). -/
def RootWF (r : RootConfig) : Prop :=
  (r.CONSENSUS_TYPE = .NONE ∧ r.CONSENSUS_CONFIG = none ∧
    r.GENESIS = some ({} : RootGenesis)) ∨
  (r.CONSENSUS_TYPE ≠ .NONE ∧ (∃ p, r.CONSENSUS_CONFIG = some p) ∧
    ∃ g, r.GENESIS = some g)

/-- Well-formedness of an aggregate for the round trip. -/
def QuarkChainWF (c : QuarkChainConfig) : Prop :=
  RootWF c.ROOT ∧ ∀ s ∈ c.SHARD_LIST, ShardWF s

/-- A small aggregate: the default config rebuilt to one shard, root block
time 10, minor block time 3. -/
def demoCfg : QuarkChainConfig := ({} : QuarkChainConfig).update 1 10 3

/-- `demoCfg` with a non-empty in-memory genesis allocation on its shard:
the allocation is dropped by serialization, so the round trip cannot
reproduce it. -/
def allocCfg : QuarkChainConfig :=
  { demoCfg with
    SHARD_LIST := demoCfg.SHARD_LIST.map fun s =>
      { s with GENESIS := some { ALLOC := [("ff", .vint 1)] } } }

/-- A shard whose back-reference points at a root with target block time 10
while its own consensus target block time is 3 (and the default extra-block
buffer 3). -/
def ratioShard : ShardConfig :=
  { CONSENSUS_TYPE := .POW_SIMULATE,
    CONSENSUS_CONFIG := some { TARGET_BLOCK_TIME := 3 },
    root_config := some
      { CONSENSUS_TYPE := .POW_SIMULATE,
        CONSENSUS_CONFIG := some { TARGET_BLOCK_TIME := 10 } } }

/-- Two shards: one with the default genesis (root height 0), one with no
genesis at all. -/
def twoShardCfg : QuarkChainConfig :=
  { SHARD_LIST := [{}, { GENESIS := none }] }

/-- The default shard genesis with a non-empty allocation. -/
def allocGenesis : ShardGenesis :=
  { ALLOC := [("ff", .vint 1)] }

/-- The serialized form of a default (inactive) `ShardConfig`. -/
def noneShardDict : Value :=
  (({} : ShardConfig).to_dict).getD .vnone

/-- A mapping for `POWConfig.from_dict` carrying one declared field and one
unknown key. -/
def fooDict : List (String × Value) :=
  [("TARGET_BLOCK_TIME", .vint 7), ("FOO", .vstr "x")]

/-- The `POWConfig` decoded from `fooDict`. -/
def fooPow : POWConfig :=
  (POWConfig.from_dict (.vdict fooDict)).getD {}

/-- The serialized form of `demoCfg`. -/
def demoDict : Value :=
  (demoCfg.to_dict).getD .vnone

/-- The aggregate decoded back from `demoDict`. -/
def demoDecoded : QuarkChainConfig :=
  (QuarkChainConfig.from_dict demoDict).getD {}

theorem ConsensusType.ofName_name (c : ConsensusType) :
    ConsensusType.ofName c.name = some c := by
  cases c <;> rfl

theorem ConsensusType.isPow_true_iff (c : ConsensusType) :
    c.isPow = true ↔ c ≠ .NONE := by
  cases c <;> decide

theorem pyIntDiv_pos_eq_floor (a b : Int) (ha : 0 < a) (hb : 0 < b) :
    pyIntDiv a b = ⌊(a : ℚ) / (b : ℚ)⌋ := by
  rw [pyIntDiv, Int.tdiv_eq_ediv ha.le hb.le]
  have hb' : ((b.toNat : ℤ)) = b := Int.toNat_of_nonneg hb.le
  rw [← hb', show (((b.toNat : ℤ)) : ℚ) = ((b.toNat : ℕ) : ℚ) by push_cast; ring]
  exact (Rat.floor_intCast_div_natCast a b.toNat).symm

/-- C9: for every `ShardGenesis` `g`, regardless of `g`'s in-memory `ALLOC`
mapping, `to_dict` maps the key `ALLOC` to the empty mapping, and every other
declared field is emitted with its current value (the instance value when
overridden, the class default otherwise - indistinguishable in the typed
state). -/
theorem shard_genesis_to_dict_blanks_alloc (g : ShardGenesis) :
    g.to_dict = .vdict
      [("ROOT_HEIGHT", .vint g.ROOT_HEIGHT),
       ("VERSION", .vint g.VERSION),
       ("HEIGHT", .vint g.HEIGHT),
       ("HASH_PREV_MINOR_BLOCK", .vstr g.HASH_PREV_MINOR_BLOCK),
       ("HASH_MERKLE_ROOT", .vstr g.HASH_MERKLE_ROOT),
       ("EXTRA_DATA", .vstr g.EXTRA_DATA),
       ("TIMESTAMP", .vint g.TIMESTAMP),
       ("DIFFICULTY", .vint g.DIFFICULTY),
       ("GAS_LIMIT", .vint g.GAS_LIMIT),
       ("NONCE", .vint g.NONCE),
       ("ALLOC", .vdict [])] := rfl

/-- C4: whenever a shard's root back-reference is set and both consensus
configs are present with positive target block times,
`max_blocks_per_shard_in_one_root_block` is the floor of the ratio of the
root's target block time to the shard's, plus the shard's
`EXTRA_SHARD_BLOCKS_IN_ROOT_BLOCK` buffer. -/
theorem max_blocks_formula (s : ShardConfig) (r : RootConfig)
    (rp sp : POWConfig) (hr : s.root_config = some r)
    (hrp : r.CONSENSUS_CONFIG = some rp) (hsp : s.CONSENSUS_CONFIG = some sp)
    (h1 : 0 < rp.TARGET_BLOCK_TIME) (h2 : 0 < sp.TARGET_BLOCK_TIME) :
    s.max_blocks_per_shard_in_one_root_block =
      some (⌊(rp.TARGET_BLOCK_TIME : ℚ) / (sp.TARGET_BLOCK_TIME : ℚ)⌋ +
        s.EXTRA_SHARD_BLOCKS_IN_ROOT_BLOCK) := by
  have hd := pyIntDiv_pos_eq_floor rp.TARGET_BLOCK_TIME sp.TARGET_BLOCK_TIME h1 h2
  simp [ShardConfig.max_blocks_per_shard_in_one_root_block, hr, hrp, hsp, hd]

/-- Witness for C4 at the spec's example: root target block time 10, shard
target block time 3, buffer 3 give `floor(10/3) + 3 = 6`. -/
theorem max_blocks_formula_witness :
    ratioShard.max_blocks_per_shard_in_one_root_block = some 6 ∧
    (0 : Int) < 10 ∧ (0 : Int) < 3 := by
  refine ⟨?_, by norm_num, by norm_num⟩
  have h := max_blocks_formula ratioShard
    { CONSENSUS_TYPE := .POW_SIMULATE,
      CONSENSUS_CONFIG := some { TARGET_BLOCK_TIME := 10 } }
    { TARGET_BLOCK_TIME := 10 } { TARGET_BLOCK_TIME := 3 }
    rfl rfl rfl (by norm_num) (by norm_num)
  rw [h]
  norm_num [ratioShard]

/-- C7: `reward_tax_rate` converts the stored rate into the reduced fraction
delivered by `limit_denominator` (the stored value itself whenever its
reduced denominator is within `limit_denominator`'s bound of `10^6`) and
fails exactly when that fraction's denominator exceeds 100. -/
theorem reward_tax_rate_spec (c : QuarkChainConfig) :
    (c.REWARD_TAX_RATE.den ≤ 1000000 →
      c.reward_tax_rate =
        if c.REWARD_TAX_RATE.den ≤ 100 then some c.REWARD_TAX_RATE else none) ∧
    (c.reward_tax_rate = none ↔
      100 < (limit_denominator c.REWARD_TAX_RATE 1000000).den) := by
  constructor
  · intro hden
    have hld : limit_denominator c.REWARD_TAX_RATE 1000000 = c.REWARD_TAX_RATE := by
      rw [limit_denominator, if_pos]
      exact_mod_cast hden
    simp only [QuarkChainConfig.reward_tax_rate, hld]
  · simp only [QuarkChainConfig.reward_tax_rate]
    by_cases h : (limit_denominator c.REWARD_TAX_RATE 1000000).den ≤ 100
    · simp only [if_pos h]
      constructor
      · intro hc
        cases hc
      · intro hc
        omega
    · simp only [if_neg h]
      constructor
      · intro _
        omega
      · intro _
        trivial

/-- Witness for C7: the default config stores rate `0.5`, exactly the
fraction `1/2` (numerator 1, denominator 2, within the bound of 100), and
the accessor succeeds with it. -/
theorem reward_tax_rate_witness :
    ({} : QuarkChainConfig).reward_tax_rate = some halfRat ∧
    halfRat.num = 1 ∧ halfRat.den = 2 := by
  refine ⟨?_, rfl, rfl⟩
  have h := (reward_tax_rate_spec ({} : QuarkChainConfig)).1 (by decide)
  rw [h, if_pos (by decide)]

theorem exists_get_cons_iff {α : Type} (s : α) (rest : List α) (base i : Nat)
    (P : α → Prop) :
    (∃ j t, (s :: rest).get? j = some t ∧ base + j = i ∧ P t) ↔
      ((base = i ∧ P s) ∨
        ∃ j t, rest.get? j = some t ∧ (base + 1) + j = i ∧ P t) := by
  constructor
  · rintro ⟨j, t, hj, hb, hp⟩
    cases j with
    | zero =>
        left
        simp only [List.get?_cons_zero, Option.some.injEq] at hj
        subst hj
        exact ⟨by omega, hp⟩
    | succ j' =>
        right
        exact ⟨j', t, by simpa using hj, by omega, hp⟩
  · rintro (⟨hb, hp⟩ | ⟨j, t, hj, hb, hp⟩)
    · exact ⟨0, s, rfl, by omega, hp⟩
    · exact ⟨j + 1, t, by simpa using hj, by omega, hp⟩

theorem initializedIdsFrom_mem (hgt : Int) (l : List ShardConfig) :
    ∀ base i, i ∈ initializedIdsFrom hgt l base ↔
      ∃ j s, l.get? j = some s ∧ base + j = i ∧
        ∃ g, s.GENESIS = some g ∧ g.ROOT_HEIGHT < hgt := by
  induction l with
  | nil => intro base i; simp [initializedIdsFrom]
  | cons s rest ih =>
      intro base i
      rw [exists_get_cons_iff s rest base i
        (fun t => ∃ g, t.GENESIS = some g ∧ g.ROOT_HEIGHT < hgt)]
      rcases hg : s.GENESIS with _ | g
      · simp only [initializedIdsFrom, hg]
        rw [ih (base + 1) i]
        simp
      · by_cases hlt : g.ROOT_HEIGHT < hgt
        · simp only [initializedIdsFrom, hg, hlt, if_true, List.mem_cons]
          rw [ih (base + 1) i]
          constructor
          · rintro (rfl | h)
            · exact Or.inl ⟨rfl, g, rfl, hlt⟩
            · exact Or.inr h
          · rintro (⟨rfl, _⟩ | h)
            · exact Or.inl rfl
            · exact Or.inr h
        · simp only [initializedIdsFrom, hg, hlt, if_false]
          rw [ih (base + 1) i]
          constructor
          · exact Or.inr
          · rintro (⟨rfl, g', hg', hlt'⟩ | h)
            · cases hg'
              exact absurd hlt' hlt
            · exact h

theorem genesisIdsFrom_mem (l : List ShardConfig) :
    ∀ base i, i ∈ genesisIdsFrom l base ↔
      ∃ j s, l.get? j = some s ∧ base + j = i ∧ s.GENESIS.isSome = true := by
  induction l with
  | nil => intro base i; simp [genesisIdsFrom]
  | cons s rest ih =>
      intro base i
      rw [exists_get_cons_iff s rest base i (fun t => t.GENESIS.isSome = true)]
      rcases hg : s.GENESIS with _ | g
      · simp only [genesisIdsFrom, hg, Option.isSome_none, Bool.false_eq_true,
          if_false]
        rw [ih (base + 1) i]
        simp
      · simp only [genesisIdsFrom, hg, Option.isSome_some, if_true,
          List.mem_cons]
        rw [ih (base + 1) i]
        constructor
        · rintro (rfl | h)
          · exact Or.inl ⟨rfl, trivial⟩
          · exact Or.inr h
        · rintro (⟨rfl, _⟩ | h)
          · exact Or.inl rfl
          · exact Or.inr h

/-- C8 counterexample: in `twoShardCfg`, shard 0 has a genesis whose root
height 0 satisfies `0 <= 0`, yet
`get_initialized_shard_ids_before_root_height 0` is empty - the source
compares with strict `<`, so the claimed "less than or equal" reading is
false at root height equal to the genesis root height. -/
theorem initialized_shard_ids_counterexample :
    twoShardCfg.get_initialized_shard_ids_before_root_height 0 = [] ∧
    twoShardCfg.get_genesis_shard_ids = [0] ∧
    twoShardCfg.get_genesis_root_height 0 = some 0 :=
  ⟨rfl, rfl, rfl⟩

/-- C8 (amended): a shard id appears in
`get_initialized_shard_ids_before_root_height(h)` if and only if that shard
has a genesis whose root height is strictly less than `h` (the source uses
`<`, not `<=`); and a shard with no genesis appears neither there nor in
`get_genesis_shard_ids()`. -/
theorem initialized_shard_ids_strict (c : QuarkChainConfig) (h : Int) :
    (∀ i, i ∈ c.get_initialized_shard_ids_before_root_height h ↔
      ∃ s, c.SHARD_LIST.get? i = some s ∧
        ∃ g, s.GENESIS = some g ∧ g.ROOT_HEIGHT < h) ∧
    (∀ i s, c.SHARD_LIST.get? i = some s → s.GENESIS = none →
      i ∉ c.get_initialized_shard_ids_before_root_height h ∧
      i ∉ c.get_genesis_shard_ids) := by
  constructor
  · intro i
    rw [QuarkChainConfig.get_initialized_shard_ids_before_root_height,
      initializedIdsFrom_mem h c.SHARD_LIST 0 i]
    constructor
    · rintro ⟨j, s, hj, hji, hgp⟩
      have hj' : j = i := by omega
      subst hj'
      exact ⟨s, hj, hgp⟩
    · rintro ⟨s, hs, hgp⟩
      exact ⟨i, s, hs, by omega, hgp⟩
  · intro i s hs hnone
    constructor
    · rw [QuarkChainConfig.get_initialized_shard_ids_before_root_height,
        initializedIdsFrom_mem h c.SHARD_LIST 0 i]
      rintro ⟨j, s', hj, hji, g, hg, _⟩
      have hj' : j = i := by omega
      subst hj'
      rw [hs] at hj
      cases hj
      rw [hnone] at hg
      cases hg
    · rw [QuarkChainConfig.get_genesis_shard_ids,
        genesisIdsFrom_mem c.SHARD_LIST 0 i]
      rintro ⟨j, s', hj, hji, hp⟩
      have hj' : j = i := by omega
      subst hj'
      rw [hs] at hj
      cases hj
      rw [hnone] at hp
      cases hp

/-- Witness for C8 at `twoShardCfg` and root height 1: shard 0 (genesis root
height 0 < 1) is reported, while shard 1 (no genesis) is excluded from both
queries. -/
theorem initialized_shard_ids_witness :
    0 ∈ twoShardCfg.get_initialized_shard_ids_before_root_height 1 ∧
    1 ∉ twoShardCfg.get_initialized_shard_ids_before_root_height 1 ∧
    1 ∉ twoShardCfg.get_genesis_shard_ids := by
  have h := initialized_shard_ids_strict twoShardCfg 1
  refine ⟨?_, (h.2 1 { GENESIS := none } rfl rfl).1,
    (h.2 1 { GENESIS := none } rfl rfl).2⟩
  exact (h.1 0).2 ⟨{}, rfl, {}, rfl, by norm_num⟩

/-- C2 counterexample: decoding the serialized form of a default (inactive)
`ShardConfig` does not leave `GENESIS` unset - the constructor's fresh
default `ShardGenesis` object remains assigned on the decoded node (it is
neither `None` nor absent), so only `CONSENSUS_CONFIG` is left unset. -/
theorem none_discriminator_genesis_counterexample :
    ((({} : ShardConfig).to_dict.bind ShardConfig.from_dict).map
      fun s => s.GENESIS) = some (some ({} : ShardGenesis)) := rfl

/-- C2 (amended): encoding a composite node whose discriminator is `NONE`
emits neither a `CONSENSUS_CONFIG` nor a `GENESIS` key; decoding such a
mapping leaves `CONSENSUS_CONFIG` unset (`None`) and leaves `GENESIS` as the
constructor's freshly built default genesis object - populated, not unset -
because the mapping carries no entry to overwrite it. -/
theorem none_discriminator_encode_decode :
    (∀ s : ShardConfig, s.CONSENSUS_TYPE = .NONE →
      ∃ ds, s.to_dict = some (.vdict ds) ∧
        ds.lookup "CONSENSUS_CONFIG" = none ∧ ds.lookup "GENESIS" = none ∧
        ∃ s', ShardConfig.from_dict (.vdict ds) = some s' ∧
          s'.CONSENSUS_CONFIG = none ∧ s'.GENESIS = some ({} : ShardGenesis)) ∧
    (∀ r : RootConfig, r.CONSENSUS_TYPE = .NONE →
      ∃ ds, r.to_dict = some (.vdict ds) ∧
        ds.lookup "CONSENSUS_CONFIG" = none ∧ ds.lookup "GENESIS" = none ∧
        ∃ r', RootConfig.from_dict (.vdict ds) = some r' ∧
          r'.CONSENSUS_CONFIG = none ∧ r'.GENESIS = some ({} : RootGenesis)) := by
  constructor
  · intro s h
    obtain ⟨ct, cc, gen, b1, b2, b3, b4, b5, b6, b7, b8, b9, b10, b11, rc, ex⟩ := s
    obtain rfl : ct = .NONE := h
    exact ⟨_, rfl, rfl, rfl, _, rfl, rfl, rfl⟩
  · intro r h
    obtain ⟨a1, ct, cc, gen, a2, a3, a4, a5, ex⟩ := r
    obtain rfl : ct = .NONE := h
    exact ⟨_, rfl, rfl, rfl, _, rfl, rfl, rfl⟩

/-- Witness for C2 at the default-constructed (inactive) shard and root. -/
theorem none_discriminator_witness :
    (∃ ds, ({} : ShardConfig).to_dict = some (.vdict ds) ∧
      ds.lookup "CONSENSUS_CONFIG" = none ∧ ds.lookup "GENESIS" = none ∧
      ∃ s', ShardConfig.from_dict (.vdict ds) = some s' ∧
        s'.CONSENSUS_CONFIG = none ∧ s'.GENESIS = some ({} : ShardGenesis)) ∧
    (∃ ds, ({} : RootConfig).to_dict = some (.vdict ds) ∧
      ds.lookup "CONSENSUS_CONFIG" = none ∧ ds.lookup "GENESIS" = none ∧
      ∃ r', RootConfig.from_dict (.vdict ds) = some r' ∧
        r'.CONSENSUS_CONFIG = none ∧ r'.GENESIS = some ({} : RootGenesis)) :=
  ⟨none_discriminator_encode_decode.1 {} rfl,
   none_discriminator_encode_decode.2 {} rfl⟩

/-- C10 counterexample: `from_dict` does not succeed for every configuration
type on every mapping with an unknown key - `ShardConfig.from_dict` on a
mapping holding only the unknown key `FOO` fails (Python raises `KeyError`:
with no `CONSENSUS_TYPE` entry, the attribute still holds the enum class
default and `ConsensusType[...]` rejects it). -/
theorem unknown_key_from_dict_counterexample :
    ShardConfig.from_dict (.vdict [("FOO", .vint 1)]) = none := rfl

/-- C10 (amended): for the base `to_dict`/`from_dict`/`__eq__` machinery
(stated on the pure field bag `POWConfig`): whenever `from_dict` succeeds it
stores every unknown entry of the mapping as a plain instance attribute;
`to_dict` never emits an unknown key; equality is unaffected by the stored
unknown attributes; and prepending an unknown entry to a mapping changes the
decode only by storing that attribute - so `to_dict` after `from_dict`
projects the mapping onto the declared field set.  (`from_dict` of a
composite type may fail even on single-unknown-key mappings, as the
counterexample shows.) -/
theorem unknown_key_projection :
    (∀ d : List (String × Value), ∀ p : POWConfig,
      POWConfig.from_dict (.vdict d) = some p →
      ∀ k v, (k, v) ∈ d → k ∉ POWConfig.fieldNames → (k, v) ∈ p.extra) ∧
    (∀ p : POWConfig, ∀ l, p.to_dict = .vdict l →
      ∀ k, k ∉ POWConfig.fieldNames → l.lookup k = none) ∧
    (∀ a b : POWConfig, ∀ e e',
      POWConfig.eq { a with extra := e } { b with extra := e' } =
        POWConfig.eq a b) ∧
    (∀ d k v, k ∉ POWConfig.fieldNames →
      POWConfig.from_dict (.vdict ((k, v) :: d)) =
        (POWConfig.from_dict (.vdict d)).map
          fun p => { p with extra := (k, v) :: p.extra }) := by
  refine ⟨?_, ?_, ?_, ?_⟩
  · intro d p hp k v hmem hk
    simp only [POWConfig.from_dict] at hp
    split at hp
    · obtain rfl : _ = p := Option.some.inj hp
      simp [extraOf, List.mem_filter, hmem, hk]
    · cases hp
  · intro p l hl k hk
    obtain ⟨t, rm, e⟩ := p
    simp only [POWConfig.fieldNames, List.mem_cons, List.not_mem_nil, or_false,
      not_or] at hk
    obtain ⟨hk1, hk2⟩ := hk
    simp only [POWConfig.to_dict] at hl
    obtain rfl : _ = l := Value.vdict.inj hl
    simp [List.lookup, beq_eq_false_iff_ne.mpr hk1, beq_eq_false_iff_ne.mpr hk2]
  · intro a b e e'
    rfl
  · intro d k v hk
    simp only [POWConfig.fieldNames, List.mem_cons, List.not_mem_nil, or_false,
      not_or] at hk
    obtain ⟨hk1, hk2⟩ := hk
    have h1 : ("TARGET_BLOCK_TIME" == k) = false :=
      beq_eq_false_iff_ne.mpr (Ne.symm hk1)
    have h2 : ("REMOTE_MINE" == k) = false :=
      beq_eq_false_iff_ne.mpr (Ne.symm hk2)
    have h3 : (POWConfig.fieldNames.contains k) = false := by
      simp [POWConfig.fieldNames, hk1, hk2]
    have e1 : vGetInt ((k, v) :: d) "TARGET_BLOCK_TIME" 10 =
        vGetInt d "TARGET_BLOCK_TIME" 10 := by
      simp [vGetInt, List.lookup, h1]
    have e2 : vGetBool ((k, v) :: d) "REMOTE_MINE" false =
        vGetBool d "REMOTE_MINE" false := by
      simp [vGetBool, List.lookup, h2]
    have e3 : extraOf ((k, v) :: d) POWConfig.fieldNames =
        (k, v) :: extraOf d POWConfig.fieldNames := by
      simp [extraOf, List.filter_cons, POWConfig.fieldNames, hk1, hk2]
    simp only [POWConfig.from_dict, e1, e2, e3]
    rcases vGetInt d "TARGET_BLOCK_TIME" 10 with _ | t <;>
      rcases vGetBool d "REMOTE_MINE" false with _ | rm <;> simp

/-- Witness for C10: decoding a mapping with declared `TARGET_BLOCK_TIME := 7`
and unknown key `FOO` succeeds, stores `FOO` outside the declared fields,
and re-encoding omits `FOO`. -/
theorem unknown_key_projection_witness :
    POWConfig.from_dict (.vdict fooDict) = some fooPow ∧
    ("FOO", .vstr "x") ∈ fooPow.extra ∧
    fooPow.TARGET_BLOCK_TIME = 7 ∧
    fooPow.to_dict =
      .vdict [("TARGET_BLOCK_TIME", .vint 7), ("REMOTE_MINE", .vbool false)] ∧
    List.lookup "FOO"
      [("TARGET_BLOCK_TIME", Value.vint 7), ("REMOTE_MINE", Value.vbool false)] =
      none := by
  refine ⟨rfl, ?_, rfl, rfl, ?_⟩
  · exact unknown_key_projection.1 fooDict fooPow rfl "FOO" (.vstr "x")
      (by simp [fooDict]) (by decide)
  · exact unknown_key_projection.2.1 fooPow
      [("TARGET_BLOCK_TIME", .vint 7), ("REMOTE_MINE", .vbool false)] rfl "FOO"
      (by decide)

set_option maxRecDepth 40000 in
/-- C3 counterexample: two `ShardGenesis` nodes differing only in the
in-memory `ALLOC` mapping compare unequal under `__eq__` (which reads the
raw declared field), yet their `to_dict` outputs are equal as Python dicts
(serialization blanks `ALLOC`) - so "equal iff the `to_dict` results are
equal" is false. -/
theorem eq_to_dict_iff_counterexample :
    ShardGenesis.eq allocGenesis ({} : ShardGenesis) = false ∧
    Value.pyEq allocGenesis.to_dict (ShardGenesis.to_dict {}) = true :=
  ⟨rfl, rfl⟩

/-- C3 (amended): the equality operation never reads non-field attributes
(the shard's root back-reference or any attribute outside the declared field
set), and equality implies that the two `to_dict` results are identical
(hence equal as Python dicts); the converse implication fails (see the
counterexample) because `to_dict` blanks `ALLOC` and omits inactive
sections, so serialized equality is coarser than `__eq__`. -/
theorem eq_ignores_nonfields_and_implies_to_dict_eq :
    (∀ a b : ShardConfig, ∀ r r' : Option RootConfig,
      ∀ e e' : List (String × Value),
      ShardConfig.eq { a with root_config := r, extra := e }
        { b with root_config := r', extra := e' } = ShardConfig.eq a b) ∧
    (∀ a b : ShardConfig, ShardConfig.eq a b = true →
      ∀ va vb, a.to_dict = some va → b.to_dict = some vb → va = vb) := by
  constructor
  · intro a b r r' e e'
    rfl
  · intro a b h va vb hva hvb
    obtain ⟨ct, cc, gen, b1, b2, b3, b4, b5, b6, b7, b8, b9, b10, b11, rc, ex⟩ := a
    obtain ⟨ct', cc', gen', c1, c2, c3, c4, c5, c6, c7, c8, c9, c10, c11, rc', ex'⟩ := b
    simp only [ShardConfig.eq, Bool.and_eq_true, beq_iff_eq] at h
    obtain ⟨⟨⟨⟨⟨⟨⟨⟨⟨⟨⟨⟨⟨hct, hcc⟩, hgen⟩, h1⟩, h2⟩, h3⟩, h4⟩, h5⟩, h6⟩, h7⟩,
      h8⟩, h9⟩, h10⟩, h11⟩ := h
    obtain rfl : ct = ct' := hct
    obtain rfl : b1 = c1 := h1
    obtain rfl : b2 = c2 := h2
    obtain rfl : b3 = c3 := h3
    obtain rfl : b4 = c4 := h4
    obtain rfl : b5 = c5 := h5
    obtain rfl : b6 = c6 := h6
    obtain rfl : b7 = c7 := h7
    obtain rfl : b8 = c8 := h8
    obtain rfl : b9 = c9 := h9
    obtain rfl : b10 = c10 := h10
    obtain rfl : b11 = c11 := h11
    rcases cc with _ | p <;> rcases cc' with _ | p' <;>
      simp only [optBeqWith] at hcc
    · rcases gen with _ | g <;> rcases gen' with _ | g' <;>
        simp only [optBeqWith] at hgen
      · exact Option.some.inj (by rw [← hva, ← hvb]; rfl)
      · exact Bool.noConfusion hgen
      · exact Bool.noConfusion hgen
      · obtain ⟨g1, g2, g3, g4, g5, g6, g7, g8, g9, g10, gal, gex⟩ := g
        obtain ⟨j1, j2, j3, j4, j5, j6, j7, j8, j9, j10, jal, jex⟩ := g'
        simp only [ShardGenesis.eq, Bool.and_eq_true, beq_iff_eq] at hgen
        obtain ⟨⟨⟨⟨⟨⟨⟨⟨⟨⟨hg1, hg2⟩, hg3⟩, hg4⟩, hg5⟩, hg6⟩, hg7⟩, hg8⟩,
          hg9⟩, hg10⟩, hgal⟩ := hgen
        obtain rfl : g1 = j1 := hg1
        obtain rfl : g2 = j2 := hg2
        obtain rfl : g3 = j3 := hg3
        obtain rfl : g4 = j4 := hg4
        obtain rfl : g5 = j5 := hg5
        obtain rfl : g6 = j6 := hg6
        obtain rfl : g7 = j7 := hg7
        obtain rfl : g8 = j8 := hg8
        obtain rfl : g9 = j9 := hg9
        obtain rfl : g10 = j10 := hg10
        exact Option.some.inj (by rw [← hva, ← hvb]; rfl)
    · exact Bool.noConfusion hcc
    · exact Bool.noConfusion hcc
    · obtain ⟨p1, p2, pe⟩ := p
      obtain ⟨p1', p2', pe'⟩ := p'
      simp only [POWConfig.eq, Bool.and_eq_true, beq_iff_eq] at hcc
      obtain ⟨hp1, hp2⟩ := hcc
      obtain rfl : p1 = p1' := hp1
      obtain rfl : p2 = p2' := hp2
      rcases gen with _ | g <;> rcases gen' with _ | g' <;>
        simp only [optBeqWith] at hgen
      · exact Option.some.inj (by rw [← hva, ← hvb]; rfl)
      · exact Bool.noConfusion hgen
      · exact Bool.noConfusion hgen
      · obtain ⟨g1, g2, g3, g4, g5, g6, g7, g8, g9, g10, gal, gex⟩ := g
        obtain ⟨j1, j2, j3, j4, j5, j6, j7, j8, j9, j10, jal, jex⟩ := g'
        simp only [ShardGenesis.eq, Bool.and_eq_true, beq_iff_eq] at hgen
        obtain ⟨⟨⟨⟨⟨⟨⟨⟨⟨⟨hg1, hg2⟩, hg3⟩, hg4⟩, hg5⟩, hg6⟩, hg7⟩, hg8⟩,
          hg9⟩, hg10⟩, hgal⟩ := hgen
        obtain rfl : g1 = j1 := hg1
        obtain rfl : g2 = j2 := hg2
        obtain rfl : g3 = j3 := hg3
        obtain rfl : g4 = j4 := hg4
        obtain rfl : g5 = j5 := hg5
        obtain rfl : g6 = j6 := hg6
        obtain rfl : g7 = j7 := hg7
        obtain rfl : g8 = j8 := hg8
        obtain rfl : g9 = j9 := hg9
        obtain rfl : g10 = j10 := hg10
        exact Option.some.inj (by rw [← hva, ← hvb]; rfl)

set_option maxRecDepth 40000 in
/-- Witness for C3: stapling a back-reference and an unknown attribute onto
one of two default shards does not change their equality; the two defaults
are `__eq__`-equal and their serialized forms are Python-dict-equal. -/
theorem eq_ignores_nonfields_witness :
    ShardConfig.eq
        { ({} : ShardConfig) with
            root_config := some qcDefaultRoot, extra := [("x", .vint 1)] }
        { ({} : ShardConfig) with root_config := none, extra := [] } =
      ShardConfig.eq ({} : ShardConfig) {} ∧
    ShardConfig.eq ({} : ShardConfig) {} = true ∧
    noneShardDict = noneShardDict ∧
    Value.pyEq noneShardDict noneShardDict = true :=
  ⟨eq_ignores_nonfields_and_implies_to_dict_eq.1 {} {} (some qcDefaultRoot)
      none [("x", .vint 1)] [],
   rfl,
   eq_ignores_nonfields_and_implies_to_dict_eq.2 {} {} rfl noneShardDict
      noneShardDict rfl rfl,
   rfl⟩

theorem hexDigitChar_fin_inj :
    ∀ a b : Fin 16, hexDigitChar a.val = hexDigitChar b.val → a = b := by
  decide

theorem hexDigitChar_inj_lt (a b : Nat) (ha : a < 16) (hb : b < 16)
    (h : hexDigitChar a = hexDigitChar b) : a = b := by
  have h2 := hexDigitChar_fin_inj ⟨a, ha⟩ ⟨b, hb⟩ h
  injection h2

theorem hex8Digits_inj (i j : Nat) (hi : i < 2 ^ 32) (hj : j < 2 ^ 32)
    (h : hex8Digits i = hex8Digits j) : i = j := by
  have hr : List.range 8 = [0, 1, 2, 3, 4, 5, 6, 7] := rfl
  simp only [hex8Digits, hr, List.map_cons, List.map_nil, List.cons.injEq,
    and_true] at h
  obtain ⟨h0, h1, h2, h3, h4, h5, h6, h7⟩ := h
  have hlt : (0 : Nat) < 16 := by norm_num
  have e0 := hexDigitChar_inj_lt _ _ (Nat.mod_lt _ hlt) (Nat.mod_lt _ hlt) h0
  have e1 := hexDigitChar_inj_lt _ _ (Nat.mod_lt _ hlt) (Nat.mod_lt _ hlt) h1
  have e2 := hexDigitChar_inj_lt _ _ (Nat.mod_lt _ hlt) (Nat.mod_lt _ hlt) h2
  have e3 := hexDigitChar_inj_lt _ _ (Nat.mod_lt _ hlt) (Nat.mod_lt _ hlt) h3
  have e4 := hexDigitChar_inj_lt _ _ (Nat.mod_lt _ hlt) (Nat.mod_lt _ hlt) h4
  have e5 := hexDigitChar_inj_lt _ _ (Nat.mod_lt _ hlt) (Nat.mod_lt _ hlt) h5
  have e6 := hexDigitChar_inj_lt _ _ (Nat.mod_lt _ hlt) (Nat.mod_lt _ hlt) h6
  have e7 := hexDigitChar_inj_lt _ _ (Nat.mod_lt _ hlt) (Nat.mod_lt _ hlt) h7
  norm_num at e0 e1 e2 e3 e4 e5 e6 e7
  omega

theorem emptyAccountAddressHex_inj (i j : Nat) (hi : i < 2 ^ 32)
    (hj : j < 2 ^ 32)
    (h : emptyAccountAddressHex i = emptyAccountAddressHex j) : i = j := by
  unfold emptyAccountAddressHex at h
  injection h with hdata
  have h2 := List.append_cancel_left hdata
  rw [Nat.mod_eq_of_lt hi, Nat.mod_eq_of_lt hj] at h2
  exact hex8Digits_inj i j hi hj h2

/-- C5: `update(n, r, m)` discards the prior root and the entire prior shard
list (the rebuilt root and shard list do not depend on the receiver at all)
and leaves the aggregate with `SHARD_SIZE = n`, a fresh simulated-consensus
root with target block time `r` and genesis shard size `n`, and exactly `n`
fresh shards, each with simulated consensus at target block time `m`, its
back-reference wired to the new root, and the empty-account coinbase address
of its index - pairwise distinct for index ranges within the 32-bit address
field. -/
theorem update_rebuilds_root_and_shards (c : QuarkChainConfig) (n : Nat)
    (r m : Int) :
    (c.update n r m).SHARD_SIZE = (n : Int) ∧
    (c.update n r m).ROOT.CONSENSUS_TYPE = .POW_SIMULATE ∧
    ((c.update n r m).ROOT.CONSENSUS_CONFIG).map POWConfig.TARGET_BLOCK_TIME =
      some r ∧
    ((c.update n r m).ROOT.GENESIS).map RootGenesis.SHARD_SIZE =
      some (n : Int) ∧
    (c.update n r m).SHARD_LIST.length = n ∧
    (∀ i, i < n → ((c.update n r m).SHARD_LIST.get? i).map (fun s =>
        (s.CONSENSUS_TYPE, s.CONSENSUS_CONFIG.map POWConfig.TARGET_BLOCK_TIME,
          s.root_config, s.COINBASE_ADDRESS)) =
      some (.POW_SIMULATE, some m, some (c.update n r m).ROOT,
        emptyAccountAddressHex i)) ∧
    (∀ i j, i < n → j < n → n ≤ 2 ^ 32 → i ≠ j →
      emptyAccountAddressHex i ≠ emptyAccountAddressHex j) ∧
    (∀ c₂ : QuarkChainConfig,
      (c₂.update n r m).ROOT = (c.update n r m).ROOT ∧
      (c₂.update n r m).SHARD_LIST = (c.update n r m).SHARD_LIST) := by
  refine ⟨rfl, rfl, rfl, rfl, by simp [QuarkChainConfig.update], ?_, ?_, ?_⟩
  · intro i hi
    simp [QuarkChainConfig.update, List.getElem?_map, List.getElem?_range hi]
  · intro i j hi hj hn hne hEq
    exact hne (emptyAccountAddressHex_inj i j (lt_of_lt_of_le hi hn)
      (lt_of_lt_of_le hj hn) hEq)
  · intro c₂
    exact ⟨rfl, rfl⟩

/-- Witness for C5 at the spec's example `update(4, 10, 5)`: exactly 4 shard
entries, with distinct index-derived coinbase addresses. -/
theorem update_rebuilds_witness :
    (({} : QuarkChainConfig).update 4 10 5).SHARD_SIZE = 4 ∧
    (({} : QuarkChainConfig).update 4 10 5).SHARD_LIST.length = 4 ∧
    ((({} : QuarkChainConfig).update 4 10 5).SHARD_LIST.get? 0).map
        (fun s => s.COINBASE_ADDRESS) = some (emptyAccountAddressHex 0) ∧
    ((({} : QuarkChainConfig).update 4 10 5).SHARD_LIST.get? 3).map
        (fun s => s.COINBASE_ADDRESS) = some (emptyAccountAddressHex 3) ∧
    emptyAccountAddressHex 0 ≠ emptyAccountAddressHex 3 := by
  have h := update_rebuilds_root_and_shards {} 4 10 5
  exact ⟨h.1, h.2.2.2.2.1, rfl, rfl,
    h.2.2.2.2.2.2.1 0 3 (by norm_num) (by norm_num) (by norm_num)
      (by norm_num)⟩

/-- C6: every mapping accepted by `QuarkChainConfig.from_dict` yields an
aggregate in which every decoded shard's root back-reference is wired to the
decoded `ROOT` (in this value-level embedding: it holds the decoded root),
so each shard's derived properties compute exactly the formulas determined
by the decoded root's fields and the shard's own fields - the values a
freshly constructed equivalent config would give. -/
theorem from_dict_wires_root_backref (v : Value) (c : QuarkChainConfig)
    (h : QuarkChainConfig.from_dict v = some c) :
    (∀ s ∈ c.SHARD_LIST, s.root_config = some c.ROOT) ∧
    (∀ s ∈ c.SHARD_LIST, ∀ rp sp : POWConfig,
      c.ROOT.CONSENSUS_CONFIG = some rp → s.CONSENSUS_CONFIG = some sp →
      s.max_blocks_per_shard_in_one_root_block =
        some (pyIntDiv rp.TARGET_BLOCK_TIME sp.TARGET_BLOCK_TIME +
          s.EXTRA_SHARD_BLOCKS_IN_ROOT_BLOCK) ∧
      s.max_stale_minor_block_height_diff =
        some (pyIntDiv
          (c.ROOT.MAX_STALE_ROOT_BLOCK_HEIGHT_DIFF * rp.TARGET_BLOCK_TIME)
          sp.TARGET_BLOCK_TIME) ∧
      s.max_minor_blocks_in_memory =
        some (pyIntDiv
          (c.ROOT.MAX_STALE_ROOT_BLOCK_HEIGHT_DIFF * rp.TARGET_BLOCK_TIME)
          sp.TARGET_BLOCK_TIME * 2)) := by
  rcases v with _ | _ | _ | _ | _ | d | _
  · exact Option.noConfusion h
  · exact Option.noConfusion h
  · exact Option.noConfusion h
  · exact Option.noConfusion h
  · exact Option.noConfusion h
  · simp only [QuarkChainConfig.from_dict] at h
    split at h <;> try exact Option.noConfusion h
    split at h <;> try exact Option.noConfusion h
    obtain rfl : _ = c := Option.some.inj h
    constructor
    · intro s hs
      obtain ⟨t, ht, rfl⟩ := List.mem_map.mp hs
      rfl
    · intro s hs rp sp hrp hsp
      obtain ⟨t, ht, rfl⟩ := List.mem_map.mp hs
      dsimp only at hrp hsp
      refine ⟨?_, ?_, ?_⟩ <;>
        simp [ShardConfig.max_blocks_per_shard_in_one_root_block,
          ShardConfig.max_stale_minor_block_height_diff,
          ShardConfig.max_minor_blocks_in_memory, hrp, hsp]
  · exact Option.noConfusion h

set_option maxRecDepth 40000 in
/-- Witness for C6: decoding the serialized one-shard `demoCfg` wires the
single decoded shard's back-reference to the decoded root. -/
theorem from_dict_wires_witness :
    QuarkChainConfig.from_dict demoDict = some demoDecoded ∧
    (demoDecoded.SHARD_LIST.get? 0).map ShardConfig.root_config =
      some (some demoDecoded.ROOT) := by
  have h := from_dict_wires_root_backref demoDict demoDecoded rfl
  refine ⟨rfl, ?_⟩
  obtain ⟨s0, hs0⟩ : ∃ s0, demoDecoded.SHARD_LIST = [s0] := ⟨_, rfl⟩
  have hm : s0 ∈ demoDecoded.SHARD_LIST := by
    rw [hs0]
    exact List.mem_singleton.mpr rfl
  rw [hs0]
  simp [h.1 s0 hm]

theorem POWConfig_from_to (p : POWConfig) :
    POWConfig.from_dict p.to_dict = some { p with extra := [] } := by
  obtain ⟨t, rm, e⟩ := p
  rfl

theorem RootGenesis_from_to (g : RootGenesis) :
    RootGenesis.from_dict g.to_dict = some { g with extra := [] } := by
  obtain ⟨a1, a2, a3, a4, a5, a6, a7, a8, e⟩ := g
  rfl

theorem ShardGenesis_from_to (g : ShardGenesis) :
    ShardGenesis.from_dict g.to_dict =
      some { g with ALLOC := [], extra := [] } := by
  obtain ⟨a1, a2, a3, a4, a5, a6, a7, a8, a9, a10, al, e⟩ := g
  rfl

theorem pyEq_nil_dicts : Value.pyEq (.vdict []) (.vdict []) = true := rfl

theorem RootConfig_roundtrip (r : RootConfig) (h : RootWF r) :
    ∃ rd r', r.to_dict = some rd ∧ RootConfig.from_dict rd = some r' ∧
      RootConfig.eq r' r = true := by
  obtain ⟨a1, ct, cc, gen, a2, a3, a4, a5, e⟩ := r
  rcases h with ⟨h1, h2, h3⟩ | ⟨h1, ⟨p, h2⟩, g, h3⟩
  · obtain rfl : ct = .NONE := h1
    obtain rfl : cc = none := h2
    obtain rfl : gen = some ({} : RootGenesis) := h3
    refine ⟨_, _, rfl, rfl, ?_⟩
    simp [RootConfig.eq, RootGenesis.eq, optBeqWith]
  · obtain rfl : cc = some p := h2
    obtain rfl : gen = some g := h3
    have h1' : ct ≠ .NONE := h1
    obtain ⟨p1, p2, pe⟩ := p
    obtain ⟨g1, g2, g3, g4, g5, g6, g7, g8, ge⟩ := g
    cases ct
    · exact absurd rfl h1'
    all_goals refine ⟨_, _, rfl, rfl, ?_⟩
    all_goals simp [RootConfig.eq, RootGenesis.eq, POWConfig.eq, optBeqWith]

theorem ShardConfig_roundtrip (s : ShardConfig) (h : ShardWF s) :
    ∃ sd s', s.to_dict = some sd ∧ ShardConfig.from_dict sd = some s' ∧
      ShardConfig.eq s' s = true := by
  obtain ⟨ct, cc, gen, b1, b2, b3, b4, b5, b6, b7, b8, b9, b10, b11, rc, ex⟩ := s
  rcases h with ⟨h1, h2, h3⟩ | ⟨h1, ⟨p, h2⟩, hgen⟩
  · obtain rfl : ct = .NONE := h1
    obtain rfl : cc = none := h2
    obtain rfl : gen = some ({} : ShardGenesis) := h3
    refine ⟨_, _, rfl, rfl, ?_⟩
    simp [ShardConfig.eq, ShardGenesis.eq, optBeqWith, pyEq_nil_dicts]
  · obtain rfl : cc = some p := h2
    have h1' : ct ≠ .NONE := h1
    obtain ⟨p1, p2, pe⟩ := p
    rcases hgen with hg | ⟨g, hg, hal⟩
    · obtain rfl : gen = none := hg
      cases ct
      · exact absurd rfl h1'
      all_goals refine ⟨_, _, rfl, rfl, ?_⟩
      all_goals simp [ShardConfig.eq, POWConfig.eq, optBeqWith]
    · obtain rfl : gen = some g := hg
      obtain ⟨g1, g2, g3, g4, g5, g6, g7, g8, g9, g10, gal, gex⟩ := g
      obtain rfl : gal = [] := hal
      cases ct
      · exact absurd rfl h1'
      all_goals refine ⟨_, _, rfl, rfl, ?_⟩
      all_goals simp [ShardConfig.eq, ShardGenesis.eq, POWConfig.eq,
        optBeqWith, pyEq_nil_dicts]

theorem shard_list_roundtrip (R : RootConfig) :
    ∀ l : List ShardConfig, (∀ s ∈ l, ShardWF s) →
      ∃ sds ss, l.mapM ShardConfig.to_dict = some sds ∧
        sds.mapM ShardConfig.from_dict = some ss ∧
        listBeqWith ShardConfig.eq
          (ss.map fun s => { s with root_config := some R }) l = true := by
  intro l
  induction l with
  | nil => intro _; exact ⟨[], [], rfl, rfl, rfl⟩
  | cons s rest ih =>
      intro hall
      obtain ⟨sd, s', hA, hB, hC⟩ :=
        ShardConfig_roundtrip s (hall s (List.mem_cons_self s rest))
      obtain ⟨sds, ss, hD, hE, hF⟩ :=
        ih fun t ht => hall t (List.mem_cons_of_mem s ht)
      refine ⟨sd :: sds, s' :: ss, ?_, ?_, ?_⟩
      · rw [List.mapM_cons, hA, hD]
        rfl
      · rw [List.mapM_cons, hB, hE]
        rfl
      · simp only [List.map_cons, listBeqWith]
        rw [show ShardConfig.eq { s' with root_config := some R } s =
          ShardConfig.eq s' s from rfl, hC, hF]
        rfl

theorem optBeqWith_beq_refl (o : Option String) :
    optBeqWith (fun x y => x == y) o o = true := by
  cases o <;> simp [optBeqWith]

/-- C1 (amended): the serialization round trip is field-equal for every
well-formed aggregate (see `QuarkChainWF`: inactive nodes carry their
constructor-default dependent sections and every present shard genesis has an
empty allocation).  The restriction is forced by the code: `to_dict` blanks
shard-genesis allocations (see the counterexample) and drops the dependent
sections of inactive nodes, so states outside `QuarkChainWF` cannot survive
the trip. -/
theorem quarkchain_roundtrip_of_wellformed (c : QuarkChainConfig)
    (h : QuarkChainWF c) :
    ∃ c', c.to_dict.bind QuarkChainConfig.from_dict = some c' ∧
      QuarkChainConfig.eq c' c = true := by
  obtain ⟨hroot, hshards⟩ := h
  obtain ⟨a1, a2, a3, a4, a5, a6, a7, a8, a9, a10, a11, a12, root, shards,
    q, e⟩ := c
  obtain ⟨rd, r', h1, h2, h3⟩ := RootConfig_roundtrip root hroot
  obtain ⟨sds, ss, h4, h5, h6⟩ := shard_list_roundtrip r' shards hshards
  refine ⟨{ SHARD_SIZE := a1, MAX_NEIGHBORS := a2, NETWORK_ID := a3,
            TRANSACTION_QUEUE_SIZE_LIMIT_PER_SHARD := a4,
            BLOCK_EXTRA_DATA_SIZE_LIMIT := a5, PROOF_OF_PROGRESS_BLOCKS := a6,
            GUARDIAN_PUBLIC_KEY := a7, GUARDIAN_PRIVATE_KEY := a8,
            P2P_PROTOCOL_VERSION := a9, P2P_COMMAND_SIZE_LIMIT := a10,
            SKIP_ROOT_DIFFICULTY_CHECK := a11,
            SKIP_MINOR_DIFFICULTY_CHECK := a12, ROOT := r',
            SHARD_LIST := ss.map fun s => { s with root_config := some r' },
            REWARD_TAX_RATE := q, extra := [] }, ?_, ?_⟩
  case refine_1 =>
    have h5' : List.mapM.loop ShardConfig.from_dict sds [] = some ss := h5
    dsimp only [QuarkChainConfig.to_dict]
    rw [h1, h4]
    dsimp only [Option.bind]
    rcases a8 with _ | gpk <;>
      simp [QuarkChainConfig.from_dict, vGetInt, vGetStr, vGetBool, vGetRat,
        vGetOptStr, optStrVal, dictSet, List.lookup, extraOf, List.filter,
        QuarkChainConfig.fieldNames, h2, h5, h5']
  case refine_2 =>
    simp only [QuarkChainConfig.eq, h3, h6, optBeqWith_beq_refl]
    simp

set_option maxRecDepth 80000 in
/-- C1 counterexample: a one-shard aggregate whose shard genesis carries a
non-empty in-memory allocation does not survive the round trip field-equal:
`to_dict` serializes the allocation as the empty mapping, the decoder stores
that empty mapping, and `__eq__` (which compares the raw `ALLOC` fields)
reports the decoded aggregate unequal to the original. -/
theorem quarkchain_roundtrip_alloc_counterexample :
    (allocCfg.to_dict.bind QuarkChainConfig.from_dict).map
      (fun c => QuarkChainConfig.eq c allocCfg) = some false := rfl

set_option maxRecDepth 80000 in
/-- Witness for C1: the rebuilt one-shard `demoCfg` is well-formed and its
round trip is field-equal. -/
theorem quarkchain_roundtrip_witness :
    QuarkChainWF demoCfg ∧
    ∃ c', demoCfg.to_dict.bind QuarkChainConfig.from_dict = some c' ∧
      QuarkChainConfig.eq c' demoCfg = true := by
  have hwf : QuarkChainWF demoCfg := by
    constructor
    · right
      exact ⟨by decide, ⟨_, rfl⟩, _, rfl⟩
    · intro s hs
      have hx : demoCfg.SHARD_LIST =
          [{ CONSENSUS_TYPE := .POW_SIMULATE,
             CONSENSUS_CONFIG := some { TARGET_BLOCK_TIME := 3 },
             COINBASE_ADDRESS := emptyAccountAddressHex 0,
             root_config := some
               { CONSENSUS_TYPE := .POW_SIMULATE,
                 CONSENSUS_CONFIG := some { TARGET_BLOCK_TIME := 10 },
                 GENESIS := some { SHARD_SIZE := 1 } } }] := rfl
      rw [hx] at hs
      rcases List.mem_singleton.mp hs with rfl
      right
      exact ⟨by decide, ⟨_, rfl⟩, Or.inr ⟨_, rfl, rfl⟩⟩
  exact ⟨hwf, quarkchain_roundtrip_of_wellformed demoCfg hwf⟩
